import Mathlib

/-!
Shallow embedding of `crates/db_views/src/comment_view.rs`: the comment view
assembly engine (single-item `CommentView::read` and the batch
`CommentQueryBuilder::list`), together with the relational data it reads.

Tables are embedded as lists of records; the diesel joins become `List.find?`
lookups (ids are unique per table, and the side records are unique per
(person, item) pair, as the data model requires); `ORDER BY` becomes a stable
`List.mergeSort`; `LIMIT`/`OFFSET` become `List.take`/`List.drop`.
Timestamps are integers (seconds); SQL `now` is passed explicitly.
The pluggable `hot_rank` SQL function is passed as an opaque parameter `hr`.
Display-only columns that the view logic never inspects are elided from the
record types.
-/

namespace Lemmy

/-- A comment row (`comment` table): the columns the view logic touches. -/
structure Comment where
  id : Int
  creator_id : Int
  post_id : Int
  content : String
  removed : Bool
  deleted : Bool
  published : Int
  «local» : Bool
  path : List Int
deriving DecidableEq, Repr

/-- A person row, safe projection (`person` table). -/
structure PersonSafe where
  id : Int
  name : String
  bot_account : Bool
deriving DecidableEq, Repr

/-- A post row (`post` table). -/
structure Post where
  id : Int
  creator_id : Int
  community_id : Int
  removed : Bool
  deleted : Bool
deriving DecidableEq, Repr

/-- A community row, safe projection (`community` table). -/
structure CommunitySafe where
  id : Int
  «local» : Bool
  hidden : Bool
  actor_id : String
deriving DecidableEq, Repr

/-- Per-comment aggregate counters (`comment_aggregates` table). -/
structure CommentAggregates where
  id : Int
  comment_id : Int
  score : Int
  upvotes : Int
  downvotes : Int
  published : Int
  child_count : Int
deriving DecidableEq, Repr

/-- A community ban row (`community_person_ban` table). -/
structure CommunityPersonBan where
  id : Int
  community_id : Int
  person_id : Int
  expires : Option Int
deriving DecidableEq, Repr

/-- A community follow row (`community_follower` table). -/
structure CommunityFollower where
  id : Int
  community_id : Int
  person_id : Int
  pending : Bool
deriving DecidableEq, Repr

/-- A saved-comment row (`comment_saved` table). -/
structure CommentSaved where
  id : Int
  comment_id : Int
  person_id : Int
deriving DecidableEq, Repr

/-- A person-block row (`person_block` table). -/
structure PersonBlock where
  id : Int
  person_id : Int
  target_id : Int
deriving DecidableEq, Repr

/-- A community-block row (`community_block` table). -/
structure CommunityBlock where
  id : Int
  community_id : Int
  person_id : Int
deriving DecidableEq, Repr

/-- A comment vote row (`comment_like` table). -/
structure CommentLike where
  id : Int
  person_id : Int
  comment_id : Int
  post_id : Int
  score : Int
deriving DecidableEq, Repr

/-- The relational store the view layer reads from. -/
structure Db where
  comments : List Comment
  persons : List PersonSafe
  posts : List Post
  communities : List CommunitySafe
  comment_aggregates : List CommentAggregates
  community_person_ban : List CommunityPersonBan
  community_follower : List CommunityFollower
  comment_saved : List CommentSaved
  person_block : List PersonBlock
  community_block : List CommunityBlock
  comment_like : List CommentLike
deriving DecidableEq, Repr

/-- Subscription tri-state (`SubscribedType` in lemmy_db_schema). -/
inductive SubscribedType where
  | NotSubscribed
  | Pending
  | Subscribed
deriving DecidableEq, Repr

/-- `ListingType` enum from lemmy_db_schema (the variants `list` matches on). -/
inductive ListingType where
  | All
  | Local
  | Subscribed
  | Community
deriving DecidableEq, BEq, Repr

/-- `SortType` enum from lemmy_db_schema (the variants `list` matches on). -/
inductive SortType where
  | Active
  | Hot
  | New
  | TopDay
  | TopWeek
  | TopMonth
  | TopYear
  | TopAll
  | MostComments
  | NewComments
deriving DecidableEq, BEq, Repr

/-- Error taxonomy surfaced by this layer (diesel `Error`): `NotFound` from
`.first(conn)` on a missing row, `QueryBuilderError` for invalid queries. -/
inductive Error where
  | NotFound
  | QueryBuilderError (msg : String)
deriving DecidableEq, Repr

/-- The assembled comment view (`CommentView` struct). -/
structure CommentView where
  comment : Comment
  creator : PersonSafe
  post : Post
  community : CommunitySafe
  counts : CommentAggregates
  creator_banned_from_community : Bool
  subscribed : SubscribedType
  saved : Bool
  creator_blocked : Bool
  my_vote : Option Int
deriving DecidableEq, Repr

/-- The joined row tuple (`CommentViewTuple`); fields are named after the
binders `CommentView::read` destructures the tuple into. -/
structure CommentViewTuple where
  comment : Comment
  creator : PersonSafe
  post : Post
  community : CommunitySafe
  counts : CommentAggregates
  creator_banned_from_community : Option CommunityPersonBan
  follower : Option CommunityFollower
  saved : Option CommentSaved
  creator_blocked : Option PersonBlock
  comment_like : Option Int
deriving DecidableEq, Repr

/-- Modelled from the spec: `CommunityFollower::to_subscribed_type` lives in
lemmy_db_schema, which is not part of the reviewed source. Spec: an absent
follow row means NotSubscribed; a present row is Pending or Subscribed
according to its state field. -/
def CommunityFollower.to_subscribed_type (follower : Option CommunityFollower) : SubscribedType :=
  match follower with
  | none => SubscribedType.NotSubscribed
  | some f => if f.pending then SubscribedType.Pending else SubscribedType.Subscribed

/-- The `community_person_ban` left-join condition (both `read` and `list`):
`community::id = ban.community_id AND ban.person_id = comment.creator_id AND
(ban.expires IS NULL OR ban.expires > now)`. -/
def banJoin (bans : List CommunityPersonBan) (now : Int) (communityId creatorId : Int) : Option CommunityPersonBan :=
  bans.find? (fun b =>
    communityId == b.community_id && b.person_id == creatorId &&
      (match b.expires with
       | none => true
       | some e => now < e))

/-- The `community_follower` left-join condition:
`post::community_id = follower.community_id AND follower.person_id = person_id_join`. -/
def followerJoin (followers : List CommunityFollower) (communityId pj : Int) : Option CommunityFollower :=
  followers.find? (fun f => communityId == f.community_id && f.person_id == pj)

/-- The `comment_saved` left-join condition:
`comment::id = saved.comment_id AND saved.person_id = person_id_join`. -/
def savedJoin (saves : List CommentSaved) (commentId pj : Int) : Option CommentSaved :=
  saves.find? (fun s => commentId == s.comment_id && s.person_id == pj)

/-- The `person_block` left-join condition:
`comment::creator_id = block.target_id AND block.person_id = person_id_join`. -/
def blockJoin (blocks : List PersonBlock) (creatorId pj : Int) : Option PersonBlock :=
  blocks.find? (fun b => creatorId == b.target_id && b.person_id == pj)

/-- The `comment_like` left-join condition:
`comment::id = like.comment_id AND like.person_id = person_id_join`. -/
def likeJoin (likes : List CommentLike) (commentId pj : Int) : Option CommentLike :=
  likes.find? (fun l => commentId == l.comment_id && l.person_id == pj)

/-- The `community_block` left join used only by `list` (not selected into the
tuple, only used by the block filter):
`community::id = block.community_id AND block.person_id = person_id_join`. -/
def communityBlockJoin (blocks : List CommunityBlock) (communityId pj : Int) : Option CommunityBlock :=
  blocks.find? (fun b => communityId == b.community_id && b.person_id == pj)

/-- The shared join pipeline of `CommentView::read` and
`CommentQueryBuilder::list`: four inner joins (creator, post, community on
`post::community_id`, aggregates) and the left joins, collapsed into one row
tuple. `none` when an inner join fails (no row produced). -/
def buildTuple (db : Db) (now : Int) (pj : Int) (c : Comment) : Option CommentViewTuple :=
  (db.persons.find? (fun p => p.id == c.creator_id)).bind (fun creator =>
  (db.posts.find? (fun p => p.id == c.post_id)).bind (fun post =>
  (db.communities.find? (fun k => k.id == post.community_id)).bind (fun community =>
  (db.comment_aggregates.find? (fun a => a.comment_id == c.id)).map (fun counts =>
    { comment := c
      creator := creator
      post := post
      community := community
      counts := counts
      creator_banned_from_community := banJoin db.community_person_ban now community.id c.creator_id
      follower := followerJoin db.community_follower post.community_id pj
      saved := savedJoin db.comment_saved c.id pj
      creator_blocked := blockJoin db.person_block c.creator_id pj
      comment_like := (likeJoin db.comment_like c.id pj).map (fun l => l.score) }))))

/-- `CommentView::read`: fetch one comment's personalized view. The sentinel
`PersonId(-1)` stands in for an anonymous viewer, and the `my_vote`
substitution turns an absent vote row into `Some(0)` when a viewer is given. -/
def CommentView.read (db : Db) (now : Int) (comment_id : Int) (my_person_id : Option Int) : Except Error CommentView :=
  let person_id_join := my_person_id.getD (-1)
  match db.comments.find? (fun c => c.id == comment_id) with
  | none => Except.error Error.NotFound
  | some c =>
    match buildTuple db now person_id_join c with
    | none => Except.error Error.NotFound
    | some t =>
      let my_vote := if my_person_id.isSome && t.comment_like.isNone then some 0 else t.comment_like
      Except.ok
        { comment := t.comment
          post := t.post
          creator := t.creator
          community := t.community
          counts := t.counts
          creator_banned_from_community := t.creator_banned_from_community.isSome
          subscribed := CommunityFollower.to_subscribed_type t.follower
          saved := t.saved.isSome
          creator_blocked := t.creator_blocked.isSome
          my_vote := my_vote }

/-- The per-row view conversion closure inside
`CommentView::from_tuple_to_vec`. Note: unlike `read`, it passes the raw
`comment_like` join value through as `my_vote` with no `Some(0)`
substitution. -/
def viewOfTuple (a : CommentViewTuple) : CommentView :=
  { comment := a.comment
    creator := a.creator
    post := a.post
    community := a.community
    counts := a.counts
    creator_banned_from_community := a.creator_banned_from_community.isSome
    subscribed := CommunityFollower.to_subscribed_type a.follower
    saved := a.saved.isSome
    creator_blocked := a.creator_blocked.isSome
    my_vote := a.comment_like }

/-- `CommentView::from_tuple_to_vec` (the `ViewToVec` impl). -/
def CommentView.from_tuple_to_vec (items : List CommentViewTuple) : List CommentView :=
  items.map viewOfTuple

/-- `CommentQueryBuilder`: the accumulated optional query configuration
(the `conn` handle is not part of the configuration; the store is passed to
`list` directly). -/
structure CommentQueryBuilder where
  listing_type : Option ListingType
  sort : Option SortType
  community_id : Option Int
  community_actor_id : Option String
  post_id : Option Int
  parent_path : Option (List Int)
  creator_id : Option Int
  my_person_id : Option Int
  search_term : Option String
  saved_only : Option Bool
  show_bot_accounts : Option Bool
  page : Option Int
  limit : Option Int
deriving DecidableEq, Repr

/-- `CommentQueryBuilder::create`: all fields start unset. -/
def CommentQueryBuilder.create : CommentQueryBuilder :=
  { listing_type := none
    sort := none
    community_id := none
    community_actor_id := none
    post_id := none
    parent_path := none
    creator_id := none
    my_person_id := none
    search_term := none
    saved_only := none
    show_bot_accounts := none
    page := none
    limit := none }

/-- Setter `listing_type` (the `MaybeOptional` argument is modelled by its
`get_optional()` result). -/
def CommentQueryBuilder.set_listing_type (q : CommentQueryBuilder) (v : Option ListingType) : CommentQueryBuilder :=
  { q with listing_type := v }

/-- Setter `sort`. -/
def CommentQueryBuilder.set_sort (q : CommentQueryBuilder) (v : Option SortType) : CommentQueryBuilder :=
  { q with sort := v }

/-- Setter `post_id`. -/
def CommentQueryBuilder.set_post_id (q : CommentQueryBuilder) (v : Option Int) : CommentQueryBuilder :=
  { q with post_id := v }

/-- Setter `creator_id`. -/
def CommentQueryBuilder.set_creator_id (q : CommentQueryBuilder) (v : Option Int) : CommentQueryBuilder :=
  { q with creator_id := v }

/-- Setter `community_id`. -/
def CommentQueryBuilder.set_community_id (q : CommentQueryBuilder) (v : Option Int) : CommentQueryBuilder :=
  { q with community_id := v }

/-- Setter `my_person_id`. -/
def CommentQueryBuilder.set_my_person_id (q : CommentQueryBuilder) (v : Option Int) : CommentQueryBuilder :=
  { q with my_person_id := v }

/-- Setter `community_actor_id`. -/
def CommentQueryBuilder.set_community_actor_id (q : CommentQueryBuilder) (v : Option String) : CommentQueryBuilder :=
  { q with community_actor_id := v }

/-- Setter `search_term`. -/
def CommentQueryBuilder.set_search_term (q : CommentQueryBuilder) (v : Option String) : CommentQueryBuilder :=
  { q with search_term := v }

/-- Setter `saved_only`. -/
def CommentQueryBuilder.set_saved_only (q : CommentQueryBuilder) (v : Option Bool) : CommentQueryBuilder :=
  { q with saved_only := v }

/-- Setter `show_bot_accounts`. -/
def CommentQueryBuilder.set_show_bot_accounts (q : CommentQueryBuilder) (v : Option Bool) : CommentQueryBuilder :=
  { q with show_bot_accounts := v }

/-- Setter `parent_path`. -/
def CommentQueryBuilder.set_parent_path (q : CommentQueryBuilder) (v : Option (List Int)) : CommentQueryBuilder :=
  { q with parent_path := v }

/-- Setter `page`. -/
def CommentQueryBuilder.set_page (q : CommentQueryBuilder) (v : Option Int) : CommentQueryBuilder :=
  { q with page := v }

/-- Setter `limit`. -/
def CommentQueryBuilder.set_limit (q : CommentQueryBuilder) (v : Option Int) : CommentQueryBuilder :=
  { q with limit := v }

/-- One day of the SQL interval arithmetic, in seconds. -/
def oneDay : Int := 86400

/-- `1.weeks()`: the SQL interval is exactly 7 days. -/
def oneWeek : Int := 7 * oneDay

/-- `1.months()`: approximated as 30 days (Postgres calendar-month intervals
depend on the calendar; no claim depends on the exact month length). -/
def oneMonth : Int := 30 * oneDay

/-- `1.years()`: approximated as 365 days (same caveat as `oneMonth`). -/
def oneYear : Int := 365 * oneDay

/-- The filter `comment::creator_id.eq(creator_id)`, applied only when
`creator_id` is configured. -/
def creatorFilterP (q : CommentQueryBuilder) (t : CommentViewTuple) : Bool :=
  match q.creator_id with
  | some cid => t.comment.creator_id == cid
  | none => true

/-- The filter `comment::post_id.eq(post_id)`, applied only when configured. -/
def postFilterP (q : CommentQueryBuilder) (t : CommentViewTuple) : Bool :=
  match q.post_id with
  | some pid => t.comment.post_id == pid
  | none => true

/-- The ltree filter `comment::path.contained_by(parent_path)`:
`path <@ ancestor` holds exactly when `ancestor` is a prefix of `path`
(the item at `ancestor` itself or one of its descendants). -/
def parentPathFilterP (q : CommentQueryBuilder) (t : CommentViewTuple) : Bool :=
  match q.parent_path with
  | some pp => pp.isPrefixOf t.comment.path
  | none => true

/-- Modelled from the spec: `fuzzy_search` lives in `lemmy_db_schema::utils`,
which is not part of the reviewed source. Spec: the search term is a
case-insensitive substring match against the item content. -/
def fuzzySearchMatch (term content : String) : Bool :=
  decide (List.IsInfix term.toLower.toList content.toLower.toList)

/-- The filter `comment::content.ilike(fuzzy_search(term))`, applied only when
configured. -/
def searchFilterP (q : CommentQueryBuilder) (t : CommentViewTuple) : Bool :=
  match q.search_term with
  | some s => fuzzySearchMatch s t.comment.content
  | none => true

/-- The listing-scope filters from the `match listing_type` arms of `list`.
`Subscribed` keeps rows whose follower join matched
(`community_follower::person_id.is_not_null()`); `Local`/`All` test
`community::hidden` against the follower join keyed to `person_id_join`;
`Community` applies the identifier filters that are configured. No filter is
applied when no listing type is configured. -/
def listingFilterP (q : CommentQueryBuilder) (pj : Int) (t : CommentViewTuple) : Bool :=
  match q.listing_type with
  | none => true
  | some ListingType.Subscribed => t.follower.isSome
  | some ListingType.Local =>
      t.community.«local» &&
        (t.community.hidden == false || t.follower.any (fun f => f.person_id == pj))
  | some ListingType.All =>
      t.community.hidden == false || t.follower.any (fun f => f.person_id == pj)
  | some ListingType.Community =>
      (match q.community_id with
       | some cid => t.post.community_id == cid
       | none => true) &&
      (match q.community_actor_id with
       | some u => t.community.actor_id == u
       | none => true)

/-- The validation in the `ListingType::Community` arm: with neither a
community id nor a community actor id configured, `list` returns
`QueryBuilderError`. -/
def listingTypeError (q : CommentQueryBuilder) : Option Error :=
  if q.listing_type = some ListingType.Community
      ∧ q.community_actor_id = none ∧ q.community_id = none then
    some (Error.QueryBuilderError "No community actor or id given")
  else
    none

/-- The filter `comment_saved::id.is_not_null()`, applied when
`saved_only.unwrap_or(false)`. -/
def savedOnlyFilterP (q : CommentQueryBuilder) (t : CommentViewTuple) : Bool :=
  if q.saved_only.getD false then t.saved.isSome else true

/-- The filter `person::bot_account.eq(false)`, applied when
`!show_bot_accounts.unwrap_or(true)`. -/
def botFilterP (q : CommentQueryBuilder) (t : CommentViewTuple) : Bool :=
  if q.show_bot_accounts.getD true then true else t.creator.bot_account == false

/-- The rolling time-window filter attached to the `Top*` sorts:
`comment::published.gt(now - interval)`; every other sort has no window. -/
def windowP (s : SortType) (now : Int) (t : CommentViewTuple) : Bool :=
  match s with
  | SortType.TopYear => now - oneYear < t.comment.published
  | SortType.TopMonth => now - oneMonth < t.comment.published
  | SortType.TopWeek => now - oneWeek < t.comment.published
  | SortType.TopDay => now - oneDay < t.comment.published
  | _ => true

/-- `ORDER BY hot_rank(score, published) DESC, published DESC`
as a merge-sort comparator ("`a` may come before `b`"). -/
def hotLe (hr : Int → Int → Int) (a b : CommentViewTuple) : Bool :=
  hr b.counts.score b.counts.published < hr a.counts.score a.counts.published ||
    (hr a.counts.score a.counts.published == hr b.counts.score b.counts.published &&
      b.counts.published ≤ a.counts.published)

/-- `ORDER BY comment::published DESC` as a comparator. -/
def newLe (a b : CommentViewTuple) : Bool :=
  b.comment.published ≤ a.comment.published

/-- `ORDER BY comment_aggregates::score DESC` as a comparator. -/
def topLe (a b : CommentViewTuple) : Bool :=
  b.counts.score ≤ a.counts.score

/-- The `match sort` arms of `list`: the `Top*` sorts first restrict to their
trailing window, then every sort orders the remaining rows with its
comparator. -/
def sortRows (hr : Int → Int → Int) (now : Int) (s : SortType) (rows : List CommentViewTuple) : List CommentViewTuple :=
  match s with
  | SortType.Hot | SortType.Active => rows.mergeSort (hotLe hr)
  | SortType.New | SortType.MostComments | SortType.NewComments => rows.mergeSort newLe
  | SortType.TopAll => rows.mergeSort topLe
  | SortType.TopYear => (rows.filter (windowP SortType.TopYear now)).mergeSort topLe
  | SortType.TopMonth => (rows.filter (windowP SortType.TopMonth now)).mergeSort topLe
  | SortType.TopWeek => (rows.filter (windowP SortType.TopWeek now)).mergeSort topLe
  | SortType.TopDay => (rows.filter (windowP SortType.TopDay now)).mergeSort topLe

/-- The block-exclusion step: only when a viewer identity is configured,
`list` filters `community_block::person_id.is_null()` and then
`person_block::person_id.is_null()` (i.e. keeps rows whose block joins
produced no row). -/
def blockStep (db : Db) (q : CommentQueryBuilder) (pj : Int) (rows : List CommentViewTuple) : List CommentViewTuple :=
  if q.my_person_id.isSome then
    (rows.filter (fun t => (communityBlockJoin db.community_block t.community.id pj).isNone)).filter
      (fun t => t.creator_blocked.isNone)
  else
    rows

/-- Modelled from the spec: `limit_and_offset_unlimited` lives in
`lemmy_db_schema::utils`, which is not part of the reviewed source. Spec:
page numbers are 1-based (default 1), the page size default is
implementation-defined, and page times size beyond the available rows yields
an empty sequence. This is the "unlimited" variant ("many more comments must
often be fetched"), so the model takes the default page size to be `i64::MAX`,
i.e. no truncation; the offset is `limit * (page - 1)`. -/
def limit_and_offset_unlimited (page limit : Option Int) : Int × Int :=
  let lim := limit.getD 9223372036854775807
  (lim, lim * (page.getD 1 - 1))

/-- The base rows of `list`: every comment whose inner joins all resolve,
as a joined row tuple. -/
def baseRows (db : Db) (now : Int) (pj : Int) : List CommentViewTuple :=
  db.comments.filterMap (buildTuple db now pj)

/-- The row pipeline of `CommentQueryBuilder::list` up to (and including) the
block-exclusion step: base join, the configured filters in source order, the
sort (with its window), then block exclusion. Pagination and view conversion
happen in `list` itself. -/
def filteredRows (db : Db) (now : Int) (hr : Int → Int → Int) (q : CommentQueryBuilder) : List CommentViewTuple :=
  let pj := q.my_person_id.getD (-1)
  let rows := baseRows db now pj
  let rows := rows.filter (creatorFilterP q)
  let rows := rows.filter (postFilterP q)
  let rows := rows.filter (parentPathFilterP q)
  let rows := rows.filter (searchFilterP q)
  let rows := rows.filter (listingFilterP q pj)
  let rows := rows.filter (savedOnlyFilterP q)
  let rows := rows.filter (botFilterP q)
  let rows := sortRows hr now (q.sort.getD SortType.New) rows
  blockStep db q pj rows

/-- `CommentQueryBuilder::list`: validate the `Community` scope, run the row
pipeline, paginate (`OFFSET`/`LIMIT`), and convert with
`from_tuple_to_vec`. -/
def CommentQueryBuilder.list (db : Db) (now : Int) (hr : Int → Int → Int) (q : CommentQueryBuilder) : Except Error (List CommentView) :=
  match listingTypeError q with
  | some e => Except.error e
  | none =>
    let lo := limit_and_offset_unlimited q.page q.limit
    Except.ok (CommentView.from_tuple_to_vec (((filteredRows db now hr q).drop lo.2.toNat).take lo.1.toNat))

/-- Recompute a row tuple's ban join against a different ban table (the ban
column is a function of the row's community and creator, so swapping the ban
table rewrites exactly this one field). Used to state that ban records never
affect which rows a query returns. -/
def setBanField (bans : List CommunityPersonBan) (now : Int) (t : CommentViewTuple) : CommentViewTuple :=
  { t with creator_banned_from_community := banJoin bans now t.community.id t.comment.creator_id }

/-! ### Concrete fixtures (mirroring the source's own test scenario: two
persons, one community, one post, a four-comment tree, a person block from
person 1 against person 2, and person 1's upvote on the root comment) -/

/-- A trivial rank policy instance for exercising the pipeline. -/
def hr0 : Int → Int → Int := fun _ _ => 0

/-- Fixture store. Comment tree (by path): 10 ⟶ 11 ⟶ 13, 10 ⟶ 12; comment 11
is by person 2, the rest by person 1; person 1 blocks person 2; person 1
upvoted comment 10. -/
def dbA : Db :=
  { comments :=
      [ { id := 10, creator_id := 1, post_id := 200, content := "Comment 0", removed := false,
          deleted := false, published := 1000, «local» := true, path := [10] }
      , { id := 11, creator_id := 2, post_id := 200, content := "Comment 1", removed := false,
          deleted := false, published := 1001, «local» := true, path := [10, 11] }
      , { id := 12, creator_id := 1, post_id := 200, content := "Comment 2", removed := false,
          deleted := false, published := 1002, «local» := true, path := [10, 12] }
      , { id := 13, creator_id := 1, post_id := 200, content := "Comment 3", removed := false,
          deleted := false, published := 1003, «local» := true, path := [10, 11, 13] } ]
    persons :=
      [ { id := 1, name := "timmy", bot_account := false }
      , { id := 2, name := "sara", bot_account := false } ]
    posts := [ { id := 200, creator_id := 1, community_id := 100, removed := false, deleted := false } ]
    communities := [ { id := 100, «local» := true, hidden := false, actor_id := "http://c100" } ]
    comment_aggregates :=
      [ { id := 1, comment_id := 10, score := 1, upvotes := 1, downvotes := 0, published := 1000, child_count := 3 }
      , { id := 2, comment_id := 11, score := 0, upvotes := 0, downvotes := 0, published := 1001, child_count := 1 }
      , { id := 3, comment_id := 12, score := 5, upvotes := 5, downvotes := 0, published := 1002, child_count := 0 }
      , { id := 4, comment_id := 13, score := 3, upvotes := 3, downvotes := 0, published := 1003, child_count := 0 } ]
    community_person_ban := []
    community_follower := []
    comment_saved := []
    person_block := [ { id := 1, person_id := 1, target_id := 2 } ]
    community_block := []
    comment_like := [ { id := 1, person_id := 1, comment_id := 10, post_id := 200, score := 1 } ] }

/-- Fixture store with a saved-comment record: person 1 saved comment 12. -/
def dbSaved : Db := { dbA with comment_saved := [ { id := 1, comment_id := 12, person_id := 1 } ] }

/-- Fixture query: saved-only listing for viewer 1. -/
def qSaved : CommentQueryBuilder :=
  (CommentQueryBuilder.create.set_saved_only (some true)).set_my_person_id (some 1)

/-- Fixture query: `Community` scope with both identifiers supplied. -/
def qBothIds : CommentQueryBuilder :=
  ((CommentQueryBuilder.create.set_listing_type (some ListingType.Community)).set_community_id
      (some 100)).set_community_actor_id (some "http://c100")

/-- Extract the views of a successful query result (empty on error); used by
the concrete instantiations below. -/
def okViews (r : Except Error (List CommentView)) : List CommentView :=
  match r with
  | Except.ok vs => vs
  | Except.error _ => []

/-- Fixture query: `TopWeek` sort. -/
def qTopWeek : CommentQueryBuilder :=
  CommentQueryBuilder.create.set_sort (some SortType.TopWeek)

/-- Fixture query: listing for viewer 1 (who blocks person 2). -/
def qViewer1 : CommentQueryBuilder :=
  CommentQueryBuilder.create.set_my_person_id (some 1)

/-- Fixture query: subtree listing under comment 11 (path `[10, 11]`). -/
def qSubtree : CommentQueryBuilder :=
  CommentQueryBuilder.create.set_parent_path (some [10, 11])

/-- An arbitrary fixed view, used as the error fallback of `okView`. -/
def dummyView : CommentView :=
  { comment := { id := 0, creator_id := 0, post_id := 0, content := "", removed := false,
                 deleted := false, published := 0, «local» := false, path := [] }
    creator := { id := 0, name := "", bot_account := false }
    post := { id := 0, creator_id := 0, community_id := 0, removed := false, deleted := false }
    community := { id := 0, «local» := false, hidden := false, actor_id := "" }
    counts := { id := 0, comment_id := 0, score := 0, upvotes := 0, downvotes := 0,
                published := 0, child_count := 0 }
    creator_banned_from_community := false
    subscribed := SubscribedType.NotSubscribed
    saved := false
    creator_blocked := false
    my_vote := none }

/-- Extract the view of a successful single-item read (`dummyView` on
error); used by the concrete instantiations below. -/
def okView (r : Except Error CommentView) : CommentView :=
  match r with
  | Except.ok v => v
  | Except.error _ => dummyView

/-- Decidable equality for `Except` results, so concrete query outcomes can be
checked by evaluation. -/
instance {e a : Type} [DecidableEq e] [DecidableEq a] : DecidableEq (Except e a) := fun x y =>
  match x, y with
  | Except.ok u, Except.ok v =>
    if h : u = v then Decidable.isTrue (by rw [h])
    else Decidable.isFalse (fun hc => by cases hc; exact h rfl)
  | Except.error u, Except.error v =>
    if h : u = v then Decidable.isTrue (by rw [h])
    else Decidable.isFalse (fun hc => by cases hc; exact h rfl)
  | Except.ok _, Except.error _ => Decidable.isFalse (fun hc => by cases hc)
  | Except.error _, Except.ok _ => Decidable.isFalse (fun hc => by cases hc)

/-! ### Helper lemmas about the pipeline -/

/-- Characterization of a successfully joined row tuple: its fields are exactly
the looked-up join partners of its comment. -/
theorem buildTuple_spec {db : Db} {now pj : Int} {c : Comment} {t : CommentViewTuple}
    (h : buildTuple db now pj c = some t) :
    t.comment = c ∧
    db.persons.find? (fun p => p.id == c.creator_id) = some t.creator ∧
    db.posts.find? (fun p => p.id == c.post_id) = some t.post ∧
    db.communities.find? (fun k => k.id == t.post.community_id) = some t.community ∧
    db.comment_aggregates.find? (fun a => a.comment_id == c.id) = some t.counts ∧
    t.creator_banned_from_community = banJoin db.community_person_ban now t.community.id c.creator_id ∧
    t.follower = followerJoin db.community_follower t.post.community_id pj ∧
    t.saved = savedJoin db.comment_saved c.id pj ∧
    t.creator_blocked = blockJoin db.person_block c.creator_id pj ∧
    t.comment_like = (likeJoin db.comment_like c.id pj).map (fun l => l.score) := by
  simp only [buildTuple, Option.bind_eq_some, Option.map_eq_some'] at h
  obtain ⟨creator, hc, post, hp, community, hk, counts, ha, ht⟩ := h
  subst ht
  simp_all

/-- Characterization of a successful single-item read: the view is assembled
from the joined tuple of the comment found by id, with the `Some(0)` vote
substitution. -/
theorem read_spec {db : Db} {now cid : Int} {mp : Option Int} {v : CommentView}
    (h : CommentView.read db now cid mp = Except.ok v) :
    ∃ t : CommentViewTuple,
      db.comments.find? (fun c => c.id == cid) = some t.comment ∧
      buildTuple db now (mp.getD (-1)) t.comment = some t ∧
      v = { comment := t.comment, creator := t.creator, post := t.post,
            community := t.community, counts := t.counts,
            creator_banned_from_community := t.creator_banned_from_community.isSome,
            subscribed := CommunityFollower.to_subscribed_type t.follower,
            saved := t.saved.isSome,
            creator_blocked := t.creator_blocked.isSome,
            my_vote := if mp.isSome && t.comment_like.isNone then some 0 else t.comment_like } := by
  simp only [CommentView.read] at h
  split at h
  · exact absurd h (by simp)
  next c hc =>
    split at h
    · exact absurd h (by simp)
    next t ht =>
      have hct : t.comment = c := (buildTuple_spec ht).1
      refine ⟨t, ?_, ?_, ?_⟩
      · rw [hc, hct]
      · rw [hct]; exact ht
      · cases h; rfl

/-- Membership in the sort stage: the row survived the sort's window filter
(sorting itself only permutes). -/
theorem mem_sortRows {hr : Int → Int → Int} {now : Int} {s : SortType}
    {rows : List CommentViewTuple} {t : CommentViewTuple} :
    t ∈ sortRows hr now s rows ↔ t ∈ rows ∧ windowP s now t = true := by
  cases s <;> simp [sortRows, windowP, List.mem_filter]

/-- Membership in the full row pipeline: the row is a joined base row and
passes every configured filter, the sort window, and (when a viewer is
configured) the two block exclusions. -/
theorem mem_filteredRows {db : Db} {now : Int} {hr : Int → Int → Int}
    {q : CommentQueryBuilder} {t : CommentViewTuple} :
    t ∈ filteredRows db now hr q ↔
      (t ∈ baseRows db now (q.my_person_id.getD (-1)) ∧
       creatorFilterP q t = true ∧ postFilterP q t = true ∧
       parentPathFilterP q t = true ∧ searchFilterP q t = true ∧
       listingFilterP q (q.my_person_id.getD (-1)) t = true ∧
       savedOnlyFilterP q t = true ∧ botFilterP q t = true ∧
       windowP (q.sort.getD SortType.New) now t = true ∧
       (q.my_person_id.isSome = true →
         (communityBlockJoin db.community_block t.community.id (q.my_person_id.getD (-1))).isNone = true ∧
         t.creator_blocked.isNone = true)) := by
  unfold filteredRows blockStep
  by_cases hmp : q.my_person_id.isSome <;>
    simp [hmp, mem_sortRows, List.mem_filter] <;> tauto

/-- Every view produced by a successful `list` is the conversion of a row of
the pipeline. -/
theorem mem_list_views {db : Db} {now : Int} {hr : Int → Int → Int}
    {q : CommentQueryBuilder} {views : List CommentView} {v : CommentView}
    (hl : CommentQueryBuilder.list db now hr q = Except.ok views) (hv : v ∈ views) :
    ∃ t, t ∈ filteredRows db now hr q ∧ v = viewOfTuple t := by
  unfold CommentQueryBuilder.list at hl
  split at hl
  · cases hl
  · cases hl
    obtain ⟨t, ht, rfl⟩ := List.mem_map.mp hv
    exact ⟨t, List.mem_of_mem_drop (List.mem_of_mem_take ht), rfl⟩

/-- The block-exclusion step never adds rows. -/
theorem length_blockStep_le (db : Db) (q : CommentQueryBuilder) (pj : Int)
    (rows : List CommentViewTuple) :
    (blockStep db q pj rows).length ≤ rows.length := by
  unfold blockStep
  split
  · exact le_trans (List.length_filter_le _ _) (List.length_filter_le _ _)
  · exact le_refl _

/-- The sort stage never adds rows. -/
theorem length_sortRows_le (hr : Int → Int → Int) (now : Int) (s : SortType)
    (rows : List CommentViewTuple) :
    (sortRows hr now s rows).length ≤ rows.length := by
  cases s <;> simp [sortRows] <;> exact List.length_filter_le _ _

/-- The pipeline never produces more rows than there are comments. -/
theorem length_filteredRows_le (db : Db) (now : Int) (hr : Int → Int → Int)
    (q : CommentQueryBuilder) :
    (filteredRows db now hr q).length ≤ db.comments.length := by
  simp only [filteredRows]
  apply le_trans (length_blockStep_le _ _ _ _)
  apply le_trans (length_sortRows_le _ _ _ _)
  apply le_trans (List.length_filter_le _ _)
  apply le_trans (List.length_filter_le _ _)
  apply le_trans (List.length_filter_le _ _)
  apply le_trans (List.length_filter_le _ _)
  apply le_trans (List.length_filter_le _ _)
  apply le_trans (List.length_filter_le _ _)
  apply le_trans (List.length_filter_le _ _)
  exact List.length_filterMap_le _ _

/-- Inversion of a successful `list`: the validation passed and the views are
the converted, paginated pipeline rows. -/
theorem list_ok_iff {db : Db} {now : Int} {hr : Int → Int → Int}
    {q : CommentQueryBuilder} {views : List CommentView} :
    CommentQueryBuilder.list db now hr q = Except.ok views ↔
      listingTypeError q = none ∧
      views = CommentView.from_tuple_to_vec
        (((filteredRows db now hr q).drop (limit_and_offset_unlimited q.page q.limit).2.toNat).take
          (limit_and_offset_unlimited q.page q.limit).1.toNat) := by
  unfold CommentQueryBuilder.list
  split
  next e he => simp [he]
  next he => simp [he, eq_comm]

/-- With no pagination parameters and a store that does not exceed the
`i64::MAX` default page size, a successful `list` returns the whole converted
pipeline. -/
theorem list_unpaged {db : Db} {now : Int} {hr : Int → Int → Int}
    {q : CommentQueryBuilder} {views : List CommentView}
    (hpage : q.page = none) (hlimit : q.limit = none)
    (hlen : db.comments.length ≤ 9223372036854775807)
    (hres : CommentQueryBuilder.list db now hr q = Except.ok views) :
    views = (filteredRows db now hr q).map viewOfTuple := by
  obtain ⟨-, hv⟩ := list_ok_iff.mp hres
  rw [hv, hpage, hlimit]
  have hlo : limit_and_offset_unlimited none none = (9223372036854775807, 0) := by
    simp [limit_and_offset_unlimited]
  rw [hlo]
  simp only [Int.toNat_zero, List.drop_zero]
  rw [List.take_of_length_le]
  · rfl
  · exact le_trans (length_filteredRows_le db now hr q) hlen

/-- The sort comparator for score-descending orderings is transitive. -/
theorem topLe_trans (a b c : CommentViewTuple) (h1 : topLe a b) (h2 : topLe b c) : topLe a c := by
  simp only [topLe, decide_eq_true_eq] at *
  omega

/-- The sort comparator for score-descending orderings is total. -/
theorem topLe_total (a b : CommentViewTuple) : topLe a b || topLe b a := by
  simp only [topLe, Bool.or_eq_true, decide_eq_true_eq]
  omega

/-- The block-exclusion step is a sublist of its input. -/
theorem blockStep_sublist (db : Db) (q : CommentQueryBuilder) (pj : Int)
    (rows : List CommentViewTuple) :
    List.Sublist (blockStep db q pj rows) rows := by
  unfold blockStep
  split
  · exact (List.filter_sublist _).trans (List.filter_sublist _)
  · exact List.Sublist.refl _

/-- The `TopWeek` sort stage orders rows by aggregate score, descending. -/
theorem sortRows_topWeek_pairwise (hr : Int → Int → Int) (now : Int)
    (rows : List CommentViewTuple) :
    (sortRows hr now SortType.TopWeek rows).Pairwise
      (fun a b => b.counts.score ≤ a.counts.score) := by
  simp only [sortRows]
  exact (@List.sorted_mergeSort _ topLe topLe_trans topLe_total _).imp
    (fun h => by simpa [topLe] using h)

/-- A successful `TopWeek` list is ordered by aggregate score, descending. -/
theorem list_topWeek_pairwise {db : Db} {now : Int} {hr : Int → Int → Int}
    {q : CommentQueryBuilder} {views : List CommentView}
    (hs : q.sort = some SortType.TopWeek)
    (hl : CommentQueryBuilder.list db now hr q = Except.ok views) :
    views.Pairwise (fun a b => b.counts.score ≤ a.counts.score) := by
  obtain ⟨-, hv⟩ := list_ok_iff.mp hl
  rw [hv]
  rw [CommentView.from_tuple_to_vec, List.pairwise_map]
  have hp : (filteredRows db now hr q).Pairwise (fun a b => b.counts.score ≤ a.counts.score) := by
    unfold filteredRows
    rw [hs]
    exact List.Pairwise.sublist (blockStep_sublist _ _ _ _) (sortRows_topWeek_pairwise _ _ _)
  exact List.Pairwise.sublist ((List.take_sublist _ _).trans (List.drop_sublist _ _)) hp

/-- The ban-join expiry condition as a proposition: expiry absent or strictly
later than query time. -/
theorem banJoin_isSome_iff {bans : List CommunityPersonBan} {now communityId creatorId : Int} :
    (banJoin bans now communityId creatorId).isSome = true ↔
      ∃ b ∈ bans, b.community_id = communityId ∧ b.person_id = creatorId ∧
        (b.expires = none ∨ ∃ e, b.expires = some e ∧ now < e) := by
  simp only [banJoin, List.find?_isSome, Bool.and_eq_true, beq_iff_eq]
  refine exists_congr fun b => and_congr_right fun _ => ?_
  cases hb : b.expires <;> simp [hb, eq_comm, and_assoc]

/-- A row of the base pipeline is the joined tuple of its own comment, which
is a comment of the store. -/
theorem mem_baseRows_spec {db : Db} {now pj : Int} {t : CommentViewTuple}
    (h : t ∈ baseRows db now pj) :
    buildTuple db now pj t.comment = some t ∧ t.comment ∈ db.comments := by
  obtain ⟨c, hc, hbt⟩ := List.mem_filterMap.mp h
  have hct : t.comment = c := (buildTuple_spec hbt).1
  rw [hct]
  exact ⟨hbt, hc⟩

/-- Every joined row's community is the community of its post
(the inner join `community::id = post::community_id`). -/
theorem community_of_row {db : Db} {now pj : Int} {t : CommentViewTuple}
    (h : t ∈ baseRows db now pj) :
    t.community.id = t.post.community_id := by
  have hspec := buildTuple_spec (mem_baseRows_spec h).1
  have hfind := List.find?_some hspec.2.2.2.1
  simpa using hfind

/-- The person-block join matches exactly when a block record of the viewer
against the creator exists. -/
theorem blockJoin_isSome_iff {blocks : List PersonBlock} {creatorId pj : Int} :
    (blockJoin blocks creatorId pj).isSome = true ↔
      ∃ b ∈ blocks, b.person_id = pj ∧ b.target_id = creatorId := by
  simp only [blockJoin, List.find?_isSome, Bool.and_eq_true, beq_iff_eq]
  exact exists_congr fun b => and_congr_right fun _ =>
    ⟨fun h => ⟨h.2, h.1.symm⟩, fun h => ⟨h.2.symm, h.1⟩⟩

/-- The community-block join matches exactly when a block record of the viewer
against the community exists. -/
theorem communityBlockJoin_isSome_iff {blocks : List CommunityBlock} {communityId pj : Int} :
    (communityBlockJoin blocks communityId pj).isSome = true ↔
      ∃ b ∈ blocks, b.person_id = pj ∧ b.community_id = communityId := by
  simp only [communityBlockJoin, List.find?_isSome, Bool.and_eq_true, beq_iff_eq]
  exact exists_congr fun b => and_congr_right fun _ =>
    ⟨fun h => ⟨h.2, h.1.symm⟩, fun h => ⟨h.2.symm, h.1⟩⟩

/-- Swapping the ban table of the store rewrites exactly the ban column of
each joined row. -/
theorem buildTuple_setBan (db : Db) (bans : List CommunityPersonBan) (now pj : Int) (c : Comment) :
    buildTuple { db with community_person_ban := bans } now pj c =
      (buildTuple db now pj c).map (setBanField bans now) := by
  unfold buildTuple
  simp only [Option.map_bind, Option.map_map, Function.comp]
  rfl

/-- `baseRows` under a swapped ban table: the same rows, ban column
recomputed. -/
theorem baseRows_setBan (db : Db) (bans : List CommunityPersonBan) (now pj : Int) :
    baseRows { db with community_person_ban := bans } now pj =
      (baseRows db now pj).map (setBanField bans now) := by
  unfold baseRows
  have h : buildTuple { db with community_person_ban := bans } now pj =
      fun c => (buildTuple db now pj c).map (setBanField bans now) :=
    funext (buildTuple_setBan db bans now pj)
  rw [h]
  exact (List.map_filterMap _ _ _).symm

/-- A filter whose predicate ignores a rewriting commutes with mapping it. -/
theorem filter_map_of_invariant (p : CommentViewTuple → Bool) (f : CommentViewTuple → CommentViewTuple)
    (hp : ∀ t, p (f t) = p t) (l : List CommentViewTuple) :
    (l.map f).filter p = (l.filter p).map f := by
  rw [List.filter_map]
  exact congrArg (List.map f) (List.filter_congr (fun t _ => hp t))

/-- Sorting with a comparator that ignores the ban column commutes with
recomputing it. -/
theorem mergeSort_map_setBan (bans : List CommunityPersonBan) (now : Int)
    (le : CommentViewTuple → CommentViewTuple → Bool)
    (hle : ∀ a b, le a b = le (setBanField bans now a) (setBanField bans now b))
    (rows : List CommentViewTuple) :
    (rows.map (setBanField bans now)).mergeSort le =
      (rows.mergeSort le).map (setBanField bans now) :=
  (List.map_mergeSort (fun a _ b _ => hle a b)).symm

/-- The sort stage ignores the ban column, so it commutes with recomputing
it. -/
theorem sortRows_map_setBan (hr : Int → Int → Int) (now : Int) (s : SortType)
    (bans : List CommunityPersonBan) (rows : List CommentViewTuple) :
    sortRows hr now s (rows.map (setBanField bans now)) =
      (sortRows hr now s rows).map (setBanField bans now) := by
  cases s <;> simp only [sortRows]
  case Hot => exact mergeSort_map_setBan bans now (hotLe hr) (fun a b => rfl) rows
  case Active => exact mergeSort_map_setBan bans now (hotLe hr) (fun a b => rfl) rows
  case New => exact mergeSort_map_setBan bans now newLe (fun a b => rfl) rows
  case MostComments => exact mergeSort_map_setBan bans now newLe (fun a b => rfl) rows
  case NewComments => exact mergeSort_map_setBan bans now newLe (fun a b => rfl) rows
  case TopAll => exact mergeSort_map_setBan bans now topLe (fun a b => rfl) rows
  case TopDay =>
    rw [filter_map_of_invariant (windowP SortType.TopDay now) (setBanField bans now) (fun t => rfl)]
    exact mergeSort_map_setBan bans now topLe (fun a b => rfl) _
  case TopWeek =>
    rw [filter_map_of_invariant (windowP SortType.TopWeek now) (setBanField bans now) (fun t => rfl)]
    exact mergeSort_map_setBan bans now topLe (fun a b => rfl) _
  case TopMonth =>
    rw [filter_map_of_invariant (windowP SortType.TopMonth now) (setBanField bans now) (fun t => rfl)]
    exact mergeSort_map_setBan bans now topLe (fun a b => rfl) _
  case TopYear =>
    rw [filter_map_of_invariant (windowP SortType.TopYear now) (setBanField bans now) (fun t => rfl)]
    exact mergeSort_map_setBan bans now topLe (fun a b => rfl) _

/-- The block-exclusion step ignores the ban column and the ban table, so it
commutes with recomputing the ban column. -/
theorem blockStep_map_setBan (db : Db) (bans : List CommunityPersonBan) (now : Int)
    (q : CommentQueryBuilder) (pj : Int) (rows : List CommentViewTuple) :
    blockStep { db with community_person_ban := bans } q pj (rows.map (setBanField bans now)) =
      (blockStep db q pj rows).map (setBanField bans now) := by
  unfold blockStep
  by_cases h : q.my_person_id.isSome <;> simp only [h, if_true, if_false, Bool.false_eq_true]
  rw [filter_map_of_invariant
      (fun t => (communityBlockJoin db.community_block t.community.id pj).isNone)
      (setBanField bans now) (fun t => rfl)]
  rw [filter_map_of_invariant (fun t => t.creator_blocked.isNone) (setBanField bans now) (fun t => rfl)]

/-- The whole row pipeline under a swapped ban table: the same rows in the
same order, with only the ban column recomputed — ban records never decide
membership or position. -/
theorem filteredRows_setBan (db : Db) (bans : List CommunityPersonBan) (now : Int)
    (hr : Int → Int → Int) (q : CommentQueryBuilder) :
    filteredRows { db with community_person_ban := bans } now hr q =
      (filteredRows db now hr q).map (setBanField bans now) := by
  simp only [filteredRows]
  rw [baseRows_setBan]
  rw [filter_map_of_invariant (creatorFilterP q) (setBanField bans now) (fun t => rfl)]
  rw [filter_map_of_invariant (postFilterP q) (setBanField bans now) (fun t => rfl)]
  rw [filter_map_of_invariant (parentPathFilterP q) (setBanField bans now) (fun t => rfl)]
  rw [filter_map_of_invariant (searchFilterP q) (setBanField bans now) (fun t => rfl)]
  rw [filter_map_of_invariant (listingFilterP q (q.my_person_id.getD (-1))) (setBanField bans now)
      (fun t => rfl)]
  rw [filter_map_of_invariant (savedOnlyFilterP q) (setBanField bans now) (fun t => rfl)]
  rw [filter_map_of_invariant (botFilterP q) (setBanField bans now) (fun t => rfl)]
  rw [sortRows_map_setBan]
  exact blockStep_map_setBan db bans now q _ _

/-! ### Claim theorems -/

/-- **C6.** For every list query with sort kind `TopWeek`, every returned view
was published within the trailing 7 days of query time (so every item
published more than 7 days before query time is excluded), and the views are
ordered by aggregate score, descending. -/
theorem top_week_window_and_score_order
    (db : Db) (now : Int) (hr : Int → Int → Int) (q : CommentQueryBuilder)
    (views : List CommentView)
    (hs : q.sort = some SortType.TopWeek)
    (hl : CommentQueryBuilder.list db now hr q = Except.ok views) :
    (∀ v ∈ views, now - 7 * oneDay < v.comment.published) ∧
    views.Pairwise (fun a b => b.counts.score ≤ a.counts.score) := by
  refine ⟨?_, list_topWeek_pairwise hs hl⟩
  intro v hv
  obtain ⟨t, ht, rfl⟩ := mem_list_views hl hv
  have hw := (mem_filteredRows.mp ht).2.2.2.2.2.2.2.2.1
  rw [hs] at hw
  simp only [windowP, Option.getD_some, decide_eq_true_eq] at hw
  simpa [viewOfTuple, oneWeek] using hw

unseal List.merge List.mergeSort in
/-- **C6 witness**: the `TopWeek` fixture query returns all four fixture views
(each within the window), score-sorted. -/
theorem top_week_window_and_score_order_witness :
    ((∀ v ∈ okViews (CommentQueryBuilder.list dbA 2000 hr0 qTopWeek),
        2000 - 7 * oneDay < v.comment.published) ∧
      (okViews (CommentQueryBuilder.list dbA 2000 hr0 qTopWeek)).Pairwise
        (fun a b => b.counts.score ≤ a.counts.score)) ∧
    (okViews (CommentQueryBuilder.list dbA 2000 hr0 qTopWeek)).map
        (fun v => (v.comment.id, v.counts.score)) = [(12, 5), (13, 3), (10, 1), (11, 0)] :=
  ⟨top_week_window_and_score_order dbA 2000 hr0 qTopWeek _ rfl rfl, by decide⟩

/-- **C4.** Block semantics: (i) in a listing for viewer `p`, no returned
view's creator is person-blocked by `p` and no returned view's community is
community-blocked by `p`; (ii) with no viewer identity, the block tables have
no effect on the result at all (under the sentinel guarantee that no block
record carries the sentinel identity `-1`); (iii) a single-item read by a
blocking viewer of an item authored by a blocked creator still succeeds, and
any successful read whose store holds such a block reports
`creator_blocked = true`. -/
theorem block_exclusion_semantics :
    (∀ (db : Db) (now : Int) (hr : Int → Int → Int) (q : CommentQueryBuilder)
        (views : List CommentView) (p : Int),
      q.my_person_id = some p →
      CommentQueryBuilder.list db now hr q = Except.ok views →
      ∀ v ∈ views,
        (¬ ∃ b ∈ db.person_block, b.person_id = p ∧ b.target_id = v.comment.creator_id) ∧
        (¬ ∃ b ∈ db.community_block, b.person_id = p ∧ b.community_id = v.community.id)) ∧
    (∀ (db : Db) (now : Int) (hr : Int → Int → Int) (q : CommentQueryBuilder)
        (pb : List PersonBlock) (cb : List CommunityBlock),
      q.my_person_id = none →
      (∀ b ∈ db.person_block, b.person_id ≠ -1) →
      (∀ b ∈ pb, b.person_id ≠ -1) →
      CommentQueryBuilder.list { db with person_block := pb, community_block := cb } now hr q =
        CommentQueryBuilder.list db now hr q) ∧
    (∀ (db : Db) (now cid p : Int) (v : CommentView),
      CommentView.read db now cid (some p) = Except.ok v →
      (∃ b ∈ db.person_block, b.person_id = p ∧ b.target_id = v.comment.creator_id) →
      v.creator_blocked = true) := by
  refine ⟨?_, ?_, ?_⟩
  · intro db now hr q views p hmp hl v hv
    obtain ⟨t, ht, rfl⟩ := mem_list_views hl hv
    have hmem := mem_filteredRows.mp ht
    have hblocks := hmem.2.2.2.2.2.2.2.2.2 (by rw [hmp]; rfl)
    have hpj : q.my_person_id.getD (-1) = p := by rw [hmp]; rfl
    rw [hpj] at hblocks
    simp only [Option.isNone_iff_eq_none] at hblocks
    constructor
    · have hcb : t.creator_blocked = blockJoin db.person_block t.comment.creator_id p := by
        have h := (buildTuple_spec (mem_baseRows_spec hmem.1).1).2.2.2.2.2.2.2.2.1
        rw [hpj] at h
        exact h
      intro hex
      have hsome : (blockJoin db.person_block t.comment.creator_id p).isSome = true :=
        blockJoin_isSome_iff.mpr (by simpa [viewOfTuple] using hex)
      rw [← hcb] at hsome
      simp [hblocks.2] at hsome
    · intro hex
      have hsome : (communityBlockJoin db.community_block t.community.id p).isSome = true :=
        communityBlockJoin_isSome_iff.mpr (by simpa [viewOfTuple] using hex)
      simp [hblocks.1] at hsome
  · intro db now hr q pb cb hmp hs1 hs2
    have h1 : ∀ cid : Int, blockJoin pb cid (-1) = none := by
      intro cid
      rw [blockJoin, List.find?_eq_none]
      intro b hb
      simp only [Bool.and_eq_true, beq_iff_eq, not_and]
      exact fun _ => hs2 b hb
    have h2 : ∀ cid : Int, blockJoin db.person_block cid (-1) = none := by
      intro cid
      rw [blockJoin, List.find?_eq_none]
      intro b hb
      simp only [Bool.and_eq_true, beq_iff_eq, not_and]
      exact fun _ => hs1 b hb
    have hbt : buildTuple { db with person_block := pb, community_block := cb } now (-1) =
        buildTuple db now (-1) := by
      funext c
      simp only [buildTuple, h1, h2]
    have hfr : filteredRows { db with person_block := pb, community_block := cb } now hr q =
        filteredRows db now hr q := by
      unfold filteredRows baseRows blockStep
      rw [hmp]
      simp only [Option.getD_none, Option.isSome_none, Bool.false_eq_true, if_neg, hbt]
      simp
    unfold CommentQueryBuilder.list
    cases hE : listingTypeError q with
    | some e => rfl
    | none => rw [hfr]
  · intro db now cid p v hread hex
    obtain ⟨t, hfind, hbt, hv⟩ := read_spec hread
    have hcb : t.creator_blocked = blockJoin db.person_block t.comment.creator_id p := by
      have h := (buildTuple_spec hbt).2.2.2.2.2.2.2.2.1
      simpa using h
    subst hv
    show t.creator_blocked.isSome = true
    rw [hcb]
    exact blockJoin_isSome_iff.mpr (by simpa using hex)

unseal List.merge List.mergeSort in
/-- **C4 witness**: at the fixture store (person 1 blocks person 2),
viewer 1's listing excludes the blocked creator's rows, an anonymous listing
ignores the block tables, and viewer 1's read of comment 11 (authored by the
blocked person 2) succeeds with `creator_blocked = true`. -/
theorem block_exclusion_semantics_witness :
    (∀ v ∈ okViews (CommentQueryBuilder.list dbA 2000 hr0 qViewer1),
      (¬ ∃ b ∈ dbA.person_block, b.person_id = 1 ∧ b.target_id = v.comment.creator_id) ∧
      (¬ ∃ b ∈ dbA.community_block, b.person_id = 1 ∧ b.community_id = v.community.id)) ∧
    (CommentQueryBuilder.list { dbA with person_block := [], community_block := [] } 2000 hr0
        CommentQueryBuilder.create =
      CommentQueryBuilder.list dbA 2000 hr0 CommentQueryBuilder.create) ∧
    ((CommentView.read dbA 2000 11 (some 1)).isOk = true ∧
      (okView (CommentView.read dbA 2000 11 (some 1))).creator_blocked = true) ∧
    (okViews (CommentQueryBuilder.list dbA 2000 hr0 qViewer1)).map (fun v => v.comment.id) =
      [13, 12, 10] := by
  refine ⟨block_exclusion_semantics.1 dbA 2000 hr0 qViewer1 _ 1 rfl rfl, ?_, ?_, by decide⟩
  · exact block_exclusion_semantics.2.1 dbA 2000 hr0 CommentQueryBuilder.create [] []
      rfl (by decide) (by decide)
  · refine ⟨by decide, ?_⟩
    exact block_exclusion_semantics.2.2 dbA 2000 11 1 (okView (CommentView.read dbA 2000 11 (some 1)))
      (by decide) (by decide)

unseal List.merge List.mergeSort in
/-- **C1.** The claim asserts that the `my_vote` tri-state rule (`None` for no
viewer, `Some(0)` for a viewer without a vote record, `Some(score)` for a
viewer with one) holds identically on the single-item read path and on the
batch list path. It does not: on the same store, for viewer 2 who has no vote
record on comment 10, `CommentView::read` produces `my_vote = Some(0)`
(lines 130–136 perform the substitution, which the source comment calls
"necessary to differentiate between other person's votes"), while
`CommentQueryBuilder::list` — whose `from_tuple_to_vec` (line 442) passes the
raw nullable join column through — produces `my_vote = None` for the very same
viewer and comments. -/
theorem my_vote_rule_diverges_between_read_and_list :
    (CommentView.read dbA 2000 10 (some 2)).map (fun v => v.my_vote) = Except.ok (some 0) ∧
    (CommentQueryBuilder.list dbA 2000 hr0
          (CommentQueryBuilder.create.set_my_person_id (some 2))).map
        (fun vs => vs.map (fun v => (v.comment.id, v.my_vote))) =
      Except.ok [(13, none), (12, none), (11, none), (10, none)] := by
  exact ⟨by decide, by decide⟩

unseal List.merge List.mergeSort in
/-- **C2 counterexample.** With the `Subscribed` scope and no viewer identity,
`list` does not fail with `InvalidQuery`: on a store whose community even has
an active follower (person 5), the query succeeds with the empty list — and
the same store does produce four views once the listing scope is dropped, so
the emptiness comes from the filter, not from an error. -/
theorem subscribed_without_viewer_does_not_fail :
    CommentQueryBuilder.list
        { dbA with community_follower := [ { id := 1, community_id := 100, person_id := 5, pending := false } ] }
        2000 hr0 (CommentQueryBuilder.create.set_listing_type (some ListingType.Subscribed)) =
      Except.ok [] ∧
    (CommentQueryBuilder.list
        { dbA with community_follower := [ { id := 1, community_id := 100, person_id := 5, pending := false } ] }
        2000 hr0 CommentQueryBuilder.create).map (fun vs => vs.length) = Except.ok 4 := by
  exact ⟨by decide, by decide⟩

/-- **C2 (amended).** A list query with the `Subscribed` scope and no viewer
identity succeeds and returns no rows (rather than failing with
`InvalidQuery`): the follower join is keyed to the sentinel identity `-1`,
which matches no follow record, so the `Subscribed` filter
(`community_follower::person_id.is_not_null()`) rejects every row. -/
theorem subscribed_without_viewer_returns_empty
    (db : Db) (now : Int) (hr : Int → Int → Int) (q : CommentQueryBuilder)
    (hlt : q.listing_type = some ListingType.Subscribed)
    (hmp : q.my_person_id = none)
    (hsent : ∀ f ∈ db.community_follower, f.person_id ≠ -1) :
    CommentQueryBuilder.list db now hr q = Except.ok [] := by
  rw [list_ok_iff]
  refine ⟨by simp [listingTypeError, hlt], ?_⟩
  have hempty : filteredRows db now hr q = [] := by
    rw [List.eq_nil_iff_forall_not_mem]
    intro t ht
    obtain ⟨hbase, -, -, -, -, hlisting, -⟩ := mem_filteredRows.mp ht
    have hfol : t.follower = followerJoin db.community_follower t.post.community_id (-1) := by
      have h := (buildTuple_spec (mem_baseRows_spec hbase).1).2.2.2.2.2.2.1
      rw [hmp] at h
      simpa using h
    have hnone : followerJoin db.community_follower t.post.community_id (-1) = none := by
      rw [followerJoin, List.find?_eq_none]
      intro f hf
      simp only [Bool.and_eq_true, beq_iff_eq, not_and]
      exact fun _ => hsent f hf
    simp only [listingFilterP, hlt] at hlisting
    rw [hfol, hnone] at hlisting
    simp at hlisting
  rw [hempty]
  simp [CommentView.from_tuple_to_vec]

/-- **C2 witness**: the amended behaviour at the fixture store. -/
theorem subscribed_without_viewer_returns_empty_witness :
    CommentQueryBuilder.list dbA 2000 hr0
        (CommentQueryBuilder.create.set_listing_type (some ListingType.Subscribed)) =
      Except.ok [] :=
  subscribed_without_viewer_returns_empty dbA 2000 hr0 _ rfl rfl (by simp [dbA])

unseal List.merge List.mergeSort in
/-- **C3 counterexample.** The claim requires that "exactly one" of the
community id and the community actor id be supplied for the `Community`
scope. The code imposes no such requirement: a query supplying BOTH
identifiers executes successfully and returns the community's rows. -/
theorem community_scope_accepts_both_identifiers :
    (CommentQueryBuilder.list dbA 2000 hr0 qBothIds).map
        (fun vs => vs.map (fun v => v.comment.id)) =
      Except.ok [13, 12, 11, 10] := by
  decide

/-- **C3 (amended).** The `Community` scope requires at least one of the two
identifiers: with neither supplied, `list` fails with the `InvalidQuery`
error (`QueryBuilderError`); when the community id is supplied, every
returned view belongs to that community (its post's community id and its
community row's id are that community); when the actor id is supplied, every
returned view's community carries that federation id. Both restrictions apply
when both identifiers are supplied. -/
theorem community_scope_requires_an_identifier :
    (∀ (db : Db) (now : Int) (hr : Int → Int → Int) (q : CommentQueryBuilder),
      q.listing_type = some ListingType.Community →
      q.community_id = none → q.community_actor_id = none →
      CommentQueryBuilder.list db now hr q =
        Except.error (Error.QueryBuilderError "No community actor or id given")) ∧
    (∀ (db : Db) (now : Int) (hr : Int → Int → Int) (q : CommentQueryBuilder)
        (views : List CommentView) (cid : Int),
      q.listing_type = some ListingType.Community →
      q.community_id = some cid →
      CommentQueryBuilder.list db now hr q = Except.ok views →
      ∀ v ∈ views, v.post.community_id = cid ∧ v.community.id = cid) ∧
    (∀ (db : Db) (now : Int) (hr : Int → Int → Int) (q : CommentQueryBuilder)
        (views : List CommentView) (u : String),
      q.listing_type = some ListingType.Community →
      q.community_actor_id = some u →
      CommentQueryBuilder.list db now hr q = Except.ok views →
      ∀ v ∈ views, v.community.actor_id = u) := by
  refine ⟨?_, ?_, ?_⟩
  · intro db now hr q hlt hcid hact
    unfold CommentQueryBuilder.list
    have he : listingTypeError q = some (Error.QueryBuilderError "No community actor or id given") := by
      simp [listingTypeError, hlt, hcid, hact]
    rw [he]
  · intro db now hr q views cid hlt hcid hl v hv
    obtain ⟨t, ht, rfl⟩ := mem_list_views hl hv
    have hbase := (mem_filteredRows.mp ht).1
    have hlisting := (mem_filteredRows.mp ht).2.2.2.2.2.1
    simp only [listingFilterP, hlt, hcid, Bool.and_eq_true, beq_iff_eq] at hlisting
    have hpc : t.post.community_id = cid := hlisting.1
    refine ⟨hpc, ?_⟩
    have := community_of_row hbase
    simp only [viewOfTuple]
    omega
  · intro db now hr q views u hlt hact hl v hv
    obtain ⟨t, ht, rfl⟩ := mem_list_views hl hv
    have hlisting := (mem_filteredRows.mp ht).2.2.2.2.2.1
    simp only [listingFilterP, hlt, hact, Bool.and_eq_true, beq_iff_eq] at hlisting
    simpa [viewOfTuple] using hlisting.2

/-- **C3 witness**: the three amended behaviours at the fixture store. -/
theorem community_scope_requires_an_identifier_witness :
    CommentQueryBuilder.list dbA 2000 hr0
        (CommentQueryBuilder.create.set_listing_type (some ListingType.Community)) =
      Except.error (Error.QueryBuilderError "No community actor or id given") ∧
    (∀ v ∈ okViews (CommentQueryBuilder.list dbA 2000 hr0 qBothIds),
      v.post.community_id = 100 ∧ v.community.id = 100) ∧
    (∀ v ∈ okViews (CommentQueryBuilder.list dbA 2000 hr0 qBothIds),
      v.community.actor_id = "http://c100") :=
  ⟨community_scope_requires_an_identifier.1 dbA 2000 hr0 _ rfl rfl rfl,
   community_scope_requires_an_identifier.2.1 dbA 2000 hr0 qBothIds _ 100 rfl rfl rfl,
   community_scope_requires_an_identifier.2.2 dbA 2000 hr0 qBothIds _ "http://c100" rfl rfl rfl⟩

/-- **C10.** Every view returned by a list query executed with the saved-only
flag set to true has `saved = true`: the `comment_saved::id.is_not_null()`
filter and the view's `saved` field are derived from the presence of the same
`comment_saved` join row. -/
theorem saved_only_views_are_saved
    (db : Db) (now : Int) (hr : Int → Int → Int) (q : CommentQueryBuilder)
    (views : List CommentView)
    (hq : q.saved_only = some true)
    (hl : CommentQueryBuilder.list db now hr q = Except.ok views) :
    ∀ v ∈ views, v.saved = true := by
  intro v hv
  obtain ⟨t, ht, rfl⟩ := mem_list_views hl hv
  have hsv := (mem_filteredRows.mp ht).2.2.2.2.2.2.1
  simp only [savedOnlyFilterP, hq, Option.getD_some, if_true] at hsv
  simpa [viewOfTuple] using hsv

unseal List.merge List.mergeSort in
/-- **C10 witness**: the saved-only fixture query returns exactly one view
(comment 12) and it is saved. -/
theorem saved_only_views_are_saved_witness :
    (∀ v ∈ okViews (CommentQueryBuilder.list dbSaved 2000 hr0 qSaved), v.saved = true) ∧
    (okViews (CommentQueryBuilder.list dbSaved 2000 hr0 qSaved)).length = 1 :=
  ⟨saved_only_views_are_saved dbSaved 2000 hr0 qSaved _ rfl rfl, by decide⟩

/-- **C5.** Subtree queries: (i) every view returned by a list query with a
subtree root path `P` has `P` as a prefix of its path (the item at `P` itself
or a descendant — so every item of an unrelated sibling subtree is excluded);
(ii) conversely, on an unpaginated query, every view the same configuration
returns without the path restriction whose path does have `P` as a prefix
(in particular every item with parent path `P`) is in the restricted
result. -/
theorem parent_path_subtree_characterization :
    (∀ (db : Db) (now : Int) (hr : Int → Int → Int) (q : CommentQueryBuilder)
        (P : List Int) (views : List CommentView),
      q.parent_path = some P →
      CommentQueryBuilder.list db now hr q = Except.ok views →
      ∀ v ∈ views, P.isPrefixOf v.comment.path = true) ∧
    (∀ (db : Db) (now : Int) (hr : Int → Int → Int) (q : CommentQueryBuilder)
        (P : List Int) (views views2 : List CommentView),
      q.parent_path = some P → q.page = none → q.limit = none →
      db.comments.length ≤ 9223372036854775807 →
      CommentQueryBuilder.list db now hr q = Except.ok views →
      CommentQueryBuilder.list db now hr { q with parent_path := none } = Except.ok views2 →
      ∀ v ∈ views2, P.isPrefixOf v.comment.path = true → v ∈ views) := by
  constructor
  · intro db now hr q P views hP hl v hv
    obtain ⟨t, ht, rfl⟩ := mem_list_views hl hv
    have hpp := (mem_filteredRows.mp ht).2.2.2.1
    simp only [parentPathFilterP, hP] at hpp
    simpa [viewOfTuple] using hpp
  · intro db now hr q P views views2 hP hpage hlimit hlen hl hl2 v hv hpre
    rw [list_unpaged hpage hlimit hlen hl]
    have hpage2 : ({ q with parent_path := none } : CommentQueryBuilder).page = none := hpage
    have hlimit2 : ({ q with parent_path := none } : CommentQueryBuilder).limit = none := hlimit
    rw [list_unpaged hpage2 hlimit2 hlen hl2] at hv
    obtain ⟨t, ht, rfl⟩ := List.mem_map.mp hv
    refine List.mem_map_of_mem viewOfTuple ?_
    have hmem := mem_filteredRows.mp ht
    refine mem_filteredRows.mpr ⟨hmem.1, hmem.2.1, hmem.2.2.1, ?_, hmem.2.2.2.2⟩
    simp only [parentPathFilterP, hP]
    simpa [viewOfTuple] using hpre

set_option maxHeartbeats 2000000 in
unseal List.merge List.mergeSort in
/-- **C5 witness**: the subtree listing rooted at comment 11 (path
`[10, 11]`) returns exactly comments 13 and 11 — including the child 13,
excluding the sibling subtree (12) and the root (10) — and every view of the
unrestricted listing whose path extends `[10, 11]` is in it. -/
theorem parent_path_subtree_characterization_witness :
    (∀ v ∈ okViews (CommentQueryBuilder.list dbA 2000 hr0 qSubtree),
      List.isPrefixOf [10, 11] v.comment.path = true) ∧
    (∀ v ∈ okViews (CommentQueryBuilder.list dbA 2000 hr0 { qSubtree with parent_path := none }),
      List.isPrefixOf [10, 11] v.comment.path = true →
        v ∈ okViews (CommentQueryBuilder.list dbA 2000 hr0 qSubtree)) ∧
    (okViews (CommentQueryBuilder.list dbA 2000 hr0 qSubtree)).map (fun v => v.comment.id) =
      [13, 11] := by
  refine ⟨parent_path_subtree_characterization.1 dbA 2000 hr0 qSubtree [10, 11] _ rfl rfl,
    parent_path_subtree_characterization.2 dbA 2000 hr0 qSubtree [10, 11] _ _ rfl rfl rfl
      (by decide) rfl rfl, by decide⟩

/-- **C8.** Pagination (with `limit_and_offset_unlimited` modelled from the
spec, as it lives outside the reviewed source): over a stable snapshot,
requesting page `p` (1-based) with page size `N` returns exactly the items at
positions `[(p-1)·N, p·N)` of the full unpaginated ordered sequence, and a
page beyond the available rows yields the empty sequence, not an error. -/
theorem pagination_returns_page_slice
    (db : Db) (now : Int) (hr : Int → Int → Int) (q : CommentQueryBuilder)
    (p N : Int) (views full : List CommentView)
    (hp : q.page = some p) (hN : q.limit = some N)
    (h1 : 1 ≤ p)
    (hlen : db.comments.length ≤ 9223372036854775807)
    (hfull : CommentQueryBuilder.list db now hr { q with page := none, limit := none } =
      Except.ok full)
    (hres : CommentQueryBuilder.list db now hr q = Except.ok views) :
    views = (full.drop ((p - 1) * N).toNat).take N.toNat ∧
    (full.length ≤ ((p - 1) * N).toNat → views = []) := by
  have hpage2 : ({ q with page := none, limit := none } : CommentQueryBuilder).page = none := rfl
  have hlimit2 : ({ q with page := none, limit := none } : CommentQueryBuilder).limit = none := rfl
  have hfull2 : full =
      (filteredRows db now hr { q with page := none, limit := none }).map viewOfTuple :=
    list_unpaged hpage2 hlimit2 hlen hfull
  have hfr : filteredRows db now hr { q with page := none, limit := none } =
      filteredRows db now hr q := rfl
  rw [hfr] at hfull2
  obtain ⟨-, hv⟩ := list_ok_iff.mp hres
  have hlo : limit_and_offset_unlimited q.page q.limit = (N, N * (p - 1)) := by
    rw [hp, hN]
    simp [limit_and_offset_unlimited]
  rw [hlo] at hv
  have hmain : views = (full.drop ((p - 1) * N).toNat).take N.toNat := by
    rw [hv, hfull2]
    simp only [CommentView.from_tuple_to_vec, List.map_take, List.map_drop]
    rw [Int.mul_comm]
  refine ⟨hmain, fun hbeyond => ?_⟩
  rw [hmain, List.drop_eq_nil_of_le hbeyond, List.take_nil]

unseal List.merge List.mergeSort in
/-- **C8 witness**: page 2 with page size 3 over the fixture store returns
exactly position 3 of the full `New`-ordered sequence `[13, 12, 11, 10]`,
namely `[10]`; page 3 is beyond the 4 available rows and returns `[]`. -/
theorem pagination_returns_page_slice_witness :
    (okViews (CommentQueryBuilder.list dbA 2000 hr0
        ((CommentQueryBuilder.create.set_page (some 2)).set_limit (some 3))) =
      ((okViews (CommentQueryBuilder.list dbA 2000 hr0 CommentQueryBuilder.create)).drop
          ((2 - 1) * 3 : Int).toNat).take (3 : Int).toNat ∧
      ((okViews (CommentQueryBuilder.list dbA 2000 hr0 CommentQueryBuilder.create)).length ≤
          ((2 - 1) * 3 : Int).toNat →
        okViews (CommentQueryBuilder.list dbA 2000 hr0
          ((CommentQueryBuilder.create.set_page (some 2)).set_limit (some 3))) = [])) ∧
    (okViews (CommentQueryBuilder.list dbA 2000 hr0
        ((CommentQueryBuilder.create.set_page (some 2)).set_limit (some 3)))).map
      (fun v => v.comment.id) = [10] ∧
    okViews (CommentQueryBuilder.list dbA 2000 hr0
        ((CommentQueryBuilder.create.set_page (some 3)).set_limit (some 3))) = [] := by
  refine ⟨?_, by decide, by decide⟩
  exact pagination_returns_page_slice dbA 2000 hr0
    ((CommentQueryBuilder.create.set_page (some 2)).set_limit (some 3)) 2 3 _ _
    rfl rfl (by decide) (by decide) rfl rfl

/-- **C9.** Every builder setter of `CommentQueryBuilder` returns a
configuration equal to its input except for the one field it names, which is
replaced by the given optional value; consequently a repeated setter is
last-write-wins and setters for distinct fields commute (all pairs are listed
below). -/
theorem builder_setters_frame :
    (∀ (q : CommentQueryBuilder) (v : Option ListingType),
        (q.set_listing_type v).listing_type = v ∧
        (q.set_listing_type v).sort = q.sort ∧
        (q.set_listing_type v).post_id = q.post_id ∧
        (q.set_listing_type v).creator_id = q.creator_id ∧
        (q.set_listing_type v).community_id = q.community_id ∧
        (q.set_listing_type v).my_person_id = q.my_person_id ∧
        (q.set_listing_type v).community_actor_id = q.community_actor_id ∧
        (q.set_listing_type v).search_term = q.search_term ∧
        (q.set_listing_type v).saved_only = q.saved_only ∧
        (q.set_listing_type v).show_bot_accounts = q.show_bot_accounts ∧
        (q.set_listing_type v).parent_path = q.parent_path ∧
        (q.set_listing_type v).page = q.page ∧
        (q.set_listing_type v).limit = q.limit) ∧
    (∀ (q : CommentQueryBuilder) (v : Option SortType),
        (q.set_sort v).sort = v ∧
        (q.set_sort v).listing_type = q.listing_type ∧
        (q.set_sort v).post_id = q.post_id ∧
        (q.set_sort v).creator_id = q.creator_id ∧
        (q.set_sort v).community_id = q.community_id ∧
        (q.set_sort v).my_person_id = q.my_person_id ∧
        (q.set_sort v).community_actor_id = q.community_actor_id ∧
        (q.set_sort v).search_term = q.search_term ∧
        (q.set_sort v).saved_only = q.saved_only ∧
        (q.set_sort v).show_bot_accounts = q.show_bot_accounts ∧
        (q.set_sort v).parent_path = q.parent_path ∧
        (q.set_sort v).page = q.page ∧
        (q.set_sort v).limit = q.limit) ∧
    (∀ (q : CommentQueryBuilder) (v : Option Int),
        (q.set_post_id v).post_id = v ∧
        (q.set_post_id v).listing_type = q.listing_type ∧
        (q.set_post_id v).sort = q.sort ∧
        (q.set_post_id v).creator_id = q.creator_id ∧
        (q.set_post_id v).community_id = q.community_id ∧
        (q.set_post_id v).my_person_id = q.my_person_id ∧
        (q.set_post_id v).community_actor_id = q.community_actor_id ∧
        (q.set_post_id v).search_term = q.search_term ∧
        (q.set_post_id v).saved_only = q.saved_only ∧
        (q.set_post_id v).show_bot_accounts = q.show_bot_accounts ∧
        (q.set_post_id v).parent_path = q.parent_path ∧
        (q.set_post_id v).page = q.page ∧
        (q.set_post_id v).limit = q.limit) ∧
    (∀ (q : CommentQueryBuilder) (v : Option Int),
        (q.set_creator_id v).creator_id = v ∧
        (q.set_creator_id v).listing_type = q.listing_type ∧
        (q.set_creator_id v).sort = q.sort ∧
        (q.set_creator_id v).post_id = q.post_id ∧
        (q.set_creator_id v).community_id = q.community_id ∧
        (q.set_creator_id v).my_person_id = q.my_person_id ∧
        (q.set_creator_id v).community_actor_id = q.community_actor_id ∧
        (q.set_creator_id v).search_term = q.search_term ∧
        (q.set_creator_id v).saved_only = q.saved_only ∧
        (q.set_creator_id v).show_bot_accounts = q.show_bot_accounts ∧
        (q.set_creator_id v).parent_path = q.parent_path ∧
        (q.set_creator_id v).page = q.page ∧
        (q.set_creator_id v).limit = q.limit) ∧
    (∀ (q : CommentQueryBuilder) (v : Option Int),
        (q.set_community_id v).community_id = v ∧
        (q.set_community_id v).listing_type = q.listing_type ∧
        (q.set_community_id v).sort = q.sort ∧
        (q.set_community_id v).post_id = q.post_id ∧
        (q.set_community_id v).creator_id = q.creator_id ∧
        (q.set_community_id v).my_person_id = q.my_person_id ∧
        (q.set_community_id v).community_actor_id = q.community_actor_id ∧
        (q.set_community_id v).search_term = q.search_term ∧
        (q.set_community_id v).saved_only = q.saved_only ∧
        (q.set_community_id v).show_bot_accounts = q.show_bot_accounts ∧
        (q.set_community_id v).parent_path = q.parent_path ∧
        (q.set_community_id v).page = q.page ∧
        (q.set_community_id v).limit = q.limit) ∧
    (∀ (q : CommentQueryBuilder) (v : Option Int),
        (q.set_my_person_id v).my_person_id = v ∧
        (q.set_my_person_id v).listing_type = q.listing_type ∧
        (q.set_my_person_id v).sort = q.sort ∧
        (q.set_my_person_id v).post_id = q.post_id ∧
        (q.set_my_person_id v).creator_id = q.creator_id ∧
        (q.set_my_person_id v).community_id = q.community_id ∧
        (q.set_my_person_id v).community_actor_id = q.community_actor_id ∧
        (q.set_my_person_id v).search_term = q.search_term ∧
        (q.set_my_person_id v).saved_only = q.saved_only ∧
        (q.set_my_person_id v).show_bot_accounts = q.show_bot_accounts ∧
        (q.set_my_person_id v).parent_path = q.parent_path ∧
        (q.set_my_person_id v).page = q.page ∧
        (q.set_my_person_id v).limit = q.limit) ∧
    (∀ (q : CommentQueryBuilder) (v : Option String),
        (q.set_community_actor_id v).community_actor_id = v ∧
        (q.set_community_actor_id v).listing_type = q.listing_type ∧
        (q.set_community_actor_id v).sort = q.sort ∧
        (q.set_community_actor_id v).post_id = q.post_id ∧
        (q.set_community_actor_id v).creator_id = q.creator_id ∧
        (q.set_community_actor_id v).community_id = q.community_id ∧
        (q.set_community_actor_id v).my_person_id = q.my_person_id ∧
        (q.set_community_actor_id v).search_term = q.search_term ∧
        (q.set_community_actor_id v).saved_only = q.saved_only ∧
        (q.set_community_actor_id v).show_bot_accounts = q.show_bot_accounts ∧
        (q.set_community_actor_id v).parent_path = q.parent_path ∧
        (q.set_community_actor_id v).page = q.page ∧
        (q.set_community_actor_id v).limit = q.limit) ∧
    (∀ (q : CommentQueryBuilder) (v : Option String),
        (q.set_search_term v).search_term = v ∧
        (q.set_search_term v).listing_type = q.listing_type ∧
        (q.set_search_term v).sort = q.sort ∧
        (q.set_search_term v).post_id = q.post_id ∧
        (q.set_search_term v).creator_id = q.creator_id ∧
        (q.set_search_term v).community_id = q.community_id ∧
        (q.set_search_term v).my_person_id = q.my_person_id ∧
        (q.set_search_term v).community_actor_id = q.community_actor_id ∧
        (q.set_search_term v).saved_only = q.saved_only ∧
        (q.set_search_term v).show_bot_accounts = q.show_bot_accounts ∧
        (q.set_search_term v).parent_path = q.parent_path ∧
        (q.set_search_term v).page = q.page ∧
        (q.set_search_term v).limit = q.limit) ∧
    (∀ (q : CommentQueryBuilder) (v : Option Bool),
        (q.set_saved_only v).saved_only = v ∧
        (q.set_saved_only v).listing_type = q.listing_type ∧
        (q.set_saved_only v).sort = q.sort ∧
        (q.set_saved_only v).post_id = q.post_id ∧
        (q.set_saved_only v).creator_id = q.creator_id ∧
        (q.set_saved_only v).community_id = q.community_id ∧
        (q.set_saved_only v).my_person_id = q.my_person_id ∧
        (q.set_saved_only v).community_actor_id = q.community_actor_id ∧
        (q.set_saved_only v).search_term = q.search_term ∧
        (q.set_saved_only v).show_bot_accounts = q.show_bot_accounts ∧
        (q.set_saved_only v).parent_path = q.parent_path ∧
        (q.set_saved_only v).page = q.page ∧
        (q.set_saved_only v).limit = q.limit) ∧
    (∀ (q : CommentQueryBuilder) (v : Option Bool),
        (q.set_show_bot_accounts v).show_bot_accounts = v ∧
        (q.set_show_bot_accounts v).listing_type = q.listing_type ∧
        (q.set_show_bot_accounts v).sort = q.sort ∧
        (q.set_show_bot_accounts v).post_id = q.post_id ∧
        (q.set_show_bot_accounts v).creator_id = q.creator_id ∧
        (q.set_show_bot_accounts v).community_id = q.community_id ∧
        (q.set_show_bot_accounts v).my_person_id = q.my_person_id ∧
        (q.set_show_bot_accounts v).community_actor_id = q.community_actor_id ∧
        (q.set_show_bot_accounts v).search_term = q.search_term ∧
        (q.set_show_bot_accounts v).saved_only = q.saved_only ∧
        (q.set_show_bot_accounts v).parent_path = q.parent_path ∧
        (q.set_show_bot_accounts v).page = q.page ∧
        (q.set_show_bot_accounts v).limit = q.limit) ∧
    (∀ (q : CommentQueryBuilder) (v : Option (List Int)),
        (q.set_parent_path v).parent_path = v ∧
        (q.set_parent_path v).listing_type = q.listing_type ∧
        (q.set_parent_path v).sort = q.sort ∧
        (q.set_parent_path v).post_id = q.post_id ∧
        (q.set_parent_path v).creator_id = q.creator_id ∧
        (q.set_parent_path v).community_id = q.community_id ∧
        (q.set_parent_path v).my_person_id = q.my_person_id ∧
        (q.set_parent_path v).community_actor_id = q.community_actor_id ∧
        (q.set_parent_path v).search_term = q.search_term ∧
        (q.set_parent_path v).saved_only = q.saved_only ∧
        (q.set_parent_path v).show_bot_accounts = q.show_bot_accounts ∧
        (q.set_parent_path v).page = q.page ∧
        (q.set_parent_path v).limit = q.limit) ∧
    (∀ (q : CommentQueryBuilder) (v : Option Int),
        (q.set_page v).page = v ∧
        (q.set_page v).listing_type = q.listing_type ∧
        (q.set_page v).sort = q.sort ∧
        (q.set_page v).post_id = q.post_id ∧
        (q.set_page v).creator_id = q.creator_id ∧
        (q.set_page v).community_id = q.community_id ∧
        (q.set_page v).my_person_id = q.my_person_id ∧
        (q.set_page v).community_actor_id = q.community_actor_id ∧
        (q.set_page v).search_term = q.search_term ∧
        (q.set_page v).saved_only = q.saved_only ∧
        (q.set_page v).show_bot_accounts = q.show_bot_accounts ∧
        (q.set_page v).parent_path = q.parent_path ∧
        (q.set_page v).limit = q.limit) ∧
    (∀ (q : CommentQueryBuilder) (v : Option Int),
        (q.set_limit v).limit = v ∧
        (q.set_limit v).listing_type = q.listing_type ∧
        (q.set_limit v).sort = q.sort ∧
        (q.set_limit v).post_id = q.post_id ∧
        (q.set_limit v).creator_id = q.creator_id ∧
        (q.set_limit v).community_id = q.community_id ∧
        (q.set_limit v).my_person_id = q.my_person_id ∧
        (q.set_limit v).community_actor_id = q.community_actor_id ∧
        (q.set_limit v).search_term = q.search_term ∧
        (q.set_limit v).saved_only = q.saved_only ∧
        (q.set_limit v).show_bot_accounts = q.show_bot_accounts ∧
        (q.set_limit v).parent_path = q.parent_path ∧
        (q.set_limit v).page = q.page) ∧
    (∀ (q : CommentQueryBuilder) (v w : Option ListingType),
        (q.set_listing_type v).set_listing_type w = q.set_listing_type w) ∧
    (∀ (q : CommentQueryBuilder) (v w : Option SortType),
        (q.set_sort v).set_sort w = q.set_sort w) ∧
    (∀ (q : CommentQueryBuilder) (v w : Option Int),
        (q.set_post_id v).set_post_id w = q.set_post_id w) ∧
    (∀ (q : CommentQueryBuilder) (v w : Option Int),
        (q.set_creator_id v).set_creator_id w = q.set_creator_id w) ∧
    (∀ (q : CommentQueryBuilder) (v w : Option Int),
        (q.set_community_id v).set_community_id w = q.set_community_id w) ∧
    (∀ (q : CommentQueryBuilder) (v w : Option Int),
        (q.set_my_person_id v).set_my_person_id w = q.set_my_person_id w) ∧
    (∀ (q : CommentQueryBuilder) (v w : Option String),
        (q.set_community_actor_id v).set_community_actor_id w = q.set_community_actor_id w) ∧
    (∀ (q : CommentQueryBuilder) (v w : Option String),
        (q.set_search_term v).set_search_term w = q.set_search_term w) ∧
    (∀ (q : CommentQueryBuilder) (v w : Option Bool),
        (q.set_saved_only v).set_saved_only w = q.set_saved_only w) ∧
    (∀ (q : CommentQueryBuilder) (v w : Option Bool),
        (q.set_show_bot_accounts v).set_show_bot_accounts w = q.set_show_bot_accounts w) ∧
    (∀ (q : CommentQueryBuilder) (v w : Option (List Int)),
        (q.set_parent_path v).set_parent_path w = q.set_parent_path w) ∧
    (∀ (q : CommentQueryBuilder) (v w : Option Int),
        (q.set_page v).set_page w = q.set_page w) ∧
    (∀ (q : CommentQueryBuilder) (v w : Option Int),
        (q.set_limit v).set_limit w = q.set_limit w) ∧
    (∀ (q : CommentQueryBuilder) (v : Option ListingType) (w : Option SortType),
        (q.set_listing_type v).set_sort w = (q.set_sort w).set_listing_type v) ∧
    (∀ (q : CommentQueryBuilder) (v : Option ListingType) (w : Option Int),
        (q.set_listing_type v).set_post_id w = (q.set_post_id w).set_listing_type v) ∧
    (∀ (q : CommentQueryBuilder) (v : Option ListingType) (w : Option Int),
        (q.set_listing_type v).set_creator_id w = (q.set_creator_id w).set_listing_type v) ∧
    (∀ (q : CommentQueryBuilder) (v : Option ListingType) (w : Option Int),
        (q.set_listing_type v).set_community_id w = (q.set_community_id w).set_listing_type v) ∧
    (∀ (q : CommentQueryBuilder) (v : Option ListingType) (w : Option Int),
        (q.set_listing_type v).set_my_person_id w = (q.set_my_person_id w).set_listing_type v) ∧
    (∀ (q : CommentQueryBuilder) (v : Option ListingType) (w : Option String),
        (q.set_listing_type v).set_community_actor_id w = (q.set_community_actor_id w).set_listing_type v) ∧
    (∀ (q : CommentQueryBuilder) (v : Option ListingType) (w : Option String),
        (q.set_listing_type v).set_search_term w = (q.set_search_term w).set_listing_type v) ∧
    (∀ (q : CommentQueryBuilder) (v : Option ListingType) (w : Option Bool),
        (q.set_listing_type v).set_saved_only w = (q.set_saved_only w).set_listing_type v) ∧
    (∀ (q : CommentQueryBuilder) (v : Option ListingType) (w : Option Bool),
        (q.set_listing_type v).set_show_bot_accounts w = (q.set_show_bot_accounts w).set_listing_type v) ∧
    (∀ (q : CommentQueryBuilder) (v : Option ListingType) (w : Option (List Int)),
        (q.set_listing_type v).set_parent_path w = (q.set_parent_path w).set_listing_type v) ∧
    (∀ (q : CommentQueryBuilder) (v : Option ListingType) (w : Option Int),
        (q.set_listing_type v).set_page w = (q.set_page w).set_listing_type v) ∧
    (∀ (q : CommentQueryBuilder) (v : Option ListingType) (w : Option Int),
        (q.set_listing_type v).set_limit w = (q.set_limit w).set_listing_type v) ∧
    (∀ (q : CommentQueryBuilder) (v : Option SortType) (w : Option Int),
        (q.set_sort v).set_post_id w = (q.set_post_id w).set_sort v) ∧
    (∀ (q : CommentQueryBuilder) (v : Option SortType) (w : Option Int),
        (q.set_sort v).set_creator_id w = (q.set_creator_id w).set_sort v) ∧
    (∀ (q : CommentQueryBuilder) (v : Option SortType) (w : Option Int),
        (q.set_sort v).set_community_id w = (q.set_community_id w).set_sort v) ∧
    (∀ (q : CommentQueryBuilder) (v : Option SortType) (w : Option Int),
        (q.set_sort v).set_my_person_id w = (q.set_my_person_id w).set_sort v) ∧
    (∀ (q : CommentQueryBuilder) (v : Option SortType) (w : Option String),
        (q.set_sort v).set_community_actor_id w = (q.set_community_actor_id w).set_sort v) ∧
    (∀ (q : CommentQueryBuilder) (v : Option SortType) (w : Option String),
        (q.set_sort v).set_search_term w = (q.set_search_term w).set_sort v) ∧
    (∀ (q : CommentQueryBuilder) (v : Option SortType) (w : Option Bool),
        (q.set_sort v).set_saved_only w = (q.set_saved_only w).set_sort v) ∧
    (∀ (q : CommentQueryBuilder) (v : Option SortType) (w : Option Bool),
        (q.set_sort v).set_show_bot_accounts w = (q.set_show_bot_accounts w).set_sort v) ∧
    (∀ (q : CommentQueryBuilder) (v : Option SortType) (w : Option (List Int)),
        (q.set_sort v).set_parent_path w = (q.set_parent_path w).set_sort v) ∧
    (∀ (q : CommentQueryBuilder) (v : Option SortType) (w : Option Int),
        (q.set_sort v).set_page w = (q.set_page w).set_sort v) ∧
    (∀ (q : CommentQueryBuilder) (v : Option SortType) (w : Option Int),
        (q.set_sort v).set_limit w = (q.set_limit w).set_sort v) ∧
    (∀ (q : CommentQueryBuilder) (v : Option Int) (w : Option Int),
        (q.set_post_id v).set_creator_id w = (q.set_creator_id w).set_post_id v) ∧
    (∀ (q : CommentQueryBuilder) (v : Option Int) (w : Option Int),
        (q.set_post_id v).set_community_id w = (q.set_community_id w).set_post_id v) ∧
    (∀ (q : CommentQueryBuilder) (v : Option Int) (w : Option Int),
        (q.set_post_id v).set_my_person_id w = (q.set_my_person_id w).set_post_id v) ∧
    (∀ (q : CommentQueryBuilder) (v : Option Int) (w : Option String),
        (q.set_post_id v).set_community_actor_id w = (q.set_community_actor_id w).set_post_id v) ∧
    (∀ (q : CommentQueryBuilder) (v : Option Int) (w : Option String),
        (q.set_post_id v).set_search_term w = (q.set_search_term w).set_post_id v) ∧
    (∀ (q : CommentQueryBuilder) (v : Option Int) (w : Option Bool),
        (q.set_post_id v).set_saved_only w = (q.set_saved_only w).set_post_id v) ∧
    (∀ (q : CommentQueryBuilder) (v : Option Int) (w : Option Bool),
        (q.set_post_id v).set_show_bot_accounts w = (q.set_show_bot_accounts w).set_post_id v) ∧
    (∀ (q : CommentQueryBuilder) (v : Option Int) (w : Option (List Int)),
        (q.set_post_id v).set_parent_path w = (q.set_parent_path w).set_post_id v) ∧
    (∀ (q : CommentQueryBuilder) (v : Option Int) (w : Option Int),
        (q.set_post_id v).set_page w = (q.set_page w).set_post_id v) ∧
    (∀ (q : CommentQueryBuilder) (v : Option Int) (w : Option Int),
        (q.set_post_id v).set_limit w = (q.set_limit w).set_post_id v) ∧
    (∀ (q : CommentQueryBuilder) (v : Option Int) (w : Option Int),
        (q.set_creator_id v).set_community_id w = (q.set_community_id w).set_creator_id v) ∧
    (∀ (q : CommentQueryBuilder) (v : Option Int) (w : Option Int),
        (q.set_creator_id v).set_my_person_id w = (q.set_my_person_id w).set_creator_id v) ∧
    (∀ (q : CommentQueryBuilder) (v : Option Int) (w : Option String),
        (q.set_creator_id v).set_community_actor_id w = (q.set_community_actor_id w).set_creator_id v) ∧
    (∀ (q : CommentQueryBuilder) (v : Option Int) (w : Option String),
        (q.set_creator_id v).set_search_term w = (q.set_search_term w).set_creator_id v) ∧
    (∀ (q : CommentQueryBuilder) (v : Option Int) (w : Option Bool),
        (q.set_creator_id v).set_saved_only w = (q.set_saved_only w).set_creator_id v) ∧
    (∀ (q : CommentQueryBuilder) (v : Option Int) (w : Option Bool),
        (q.set_creator_id v).set_show_bot_accounts w = (q.set_show_bot_accounts w).set_creator_id v) ∧
    (∀ (q : CommentQueryBuilder) (v : Option Int) (w : Option (List Int)),
        (q.set_creator_id v).set_parent_path w = (q.set_parent_path w).set_creator_id v) ∧
    (∀ (q : CommentQueryBuilder) (v : Option Int) (w : Option Int),
        (q.set_creator_id v).set_page w = (q.set_page w).set_creator_id v) ∧
    (∀ (q : CommentQueryBuilder) (v : Option Int) (w : Option Int),
        (q.set_creator_id v).set_limit w = (q.set_limit w).set_creator_id v) ∧
    (∀ (q : CommentQueryBuilder) (v : Option Int) (w : Option Int),
        (q.set_community_id v).set_my_person_id w = (q.set_my_person_id w).set_community_id v) ∧
    (∀ (q : CommentQueryBuilder) (v : Option Int) (w : Option String),
        (q.set_community_id v).set_community_actor_id w = (q.set_community_actor_id w).set_community_id v) ∧
    (∀ (q : CommentQueryBuilder) (v : Option Int) (w : Option String),
        (q.set_community_id v).set_search_term w = (q.set_search_term w).set_community_id v) ∧
    (∀ (q : CommentQueryBuilder) (v : Option Int) (w : Option Bool),
        (q.set_community_id v).set_saved_only w = (q.set_saved_only w).set_community_id v) ∧
    (∀ (q : CommentQueryBuilder) (v : Option Int) (w : Option Bool),
        (q.set_community_id v).set_show_bot_accounts w = (q.set_show_bot_accounts w).set_community_id v) ∧
    (∀ (q : CommentQueryBuilder) (v : Option Int) (w : Option (List Int)),
        (q.set_community_id v).set_parent_path w = (q.set_parent_path w).set_community_id v) ∧
    (∀ (q : CommentQueryBuilder) (v : Option Int) (w : Option Int),
        (q.set_community_id v).set_page w = (q.set_page w).set_community_id v) ∧
    (∀ (q : CommentQueryBuilder) (v : Option Int) (w : Option Int),
        (q.set_community_id v).set_limit w = (q.set_limit w).set_community_id v) ∧
    (∀ (q : CommentQueryBuilder) (v : Option Int) (w : Option String),
        (q.set_my_person_id v).set_community_actor_id w = (q.set_community_actor_id w).set_my_person_id v) ∧
    (∀ (q : CommentQueryBuilder) (v : Option Int) (w : Option String),
        (q.set_my_person_id v).set_search_term w = (q.set_search_term w).set_my_person_id v) ∧
    (∀ (q : CommentQueryBuilder) (v : Option Int) (w : Option Bool),
        (q.set_my_person_id v).set_saved_only w = (q.set_saved_only w).set_my_person_id v) ∧
    (∀ (q : CommentQueryBuilder) (v : Option Int) (w : Option Bool),
        (q.set_my_person_id v).set_show_bot_accounts w = (q.set_show_bot_accounts w).set_my_person_id v) ∧
    (∀ (q : CommentQueryBuilder) (v : Option Int) (w : Option (List Int)),
        (q.set_my_person_id v).set_parent_path w = (q.set_parent_path w).set_my_person_id v) ∧
    (∀ (q : CommentQueryBuilder) (v : Option Int) (w : Option Int),
        (q.set_my_person_id v).set_page w = (q.set_page w).set_my_person_id v) ∧
    (∀ (q : CommentQueryBuilder) (v : Option Int) (w : Option Int),
        (q.set_my_person_id v).set_limit w = (q.set_limit w).set_my_person_id v) ∧
    (∀ (q : CommentQueryBuilder) (v : Option String) (w : Option String),
        (q.set_community_actor_id v).set_search_term w = (q.set_search_term w).set_community_actor_id v) ∧
    (∀ (q : CommentQueryBuilder) (v : Option String) (w : Option Bool),
        (q.set_community_actor_id v).set_saved_only w = (q.set_saved_only w).set_community_actor_id v) ∧
    (∀ (q : CommentQueryBuilder) (v : Option String) (w : Option Bool),
        (q.set_community_actor_id v).set_show_bot_accounts w = (q.set_show_bot_accounts w).set_community_actor_id v) ∧
    (∀ (q : CommentQueryBuilder) (v : Option String) (w : Option (List Int)),
        (q.set_community_actor_id v).set_parent_path w = (q.set_parent_path w).set_community_actor_id v) ∧
    (∀ (q : CommentQueryBuilder) (v : Option String) (w : Option Int),
        (q.set_community_actor_id v).set_page w = (q.set_page w).set_community_actor_id v) ∧
    (∀ (q : CommentQueryBuilder) (v : Option String) (w : Option Int),
        (q.set_community_actor_id v).set_limit w = (q.set_limit w).set_community_actor_id v) ∧
    (∀ (q : CommentQueryBuilder) (v : Option String) (w : Option Bool),
        (q.set_search_term v).set_saved_only w = (q.set_saved_only w).set_search_term v) ∧
    (∀ (q : CommentQueryBuilder) (v : Option String) (w : Option Bool),
        (q.set_search_term v).set_show_bot_accounts w = (q.set_show_bot_accounts w).set_search_term v) ∧
    (∀ (q : CommentQueryBuilder) (v : Option String) (w : Option (List Int)),
        (q.set_search_term v).set_parent_path w = (q.set_parent_path w).set_search_term v) ∧
    (∀ (q : CommentQueryBuilder) (v : Option String) (w : Option Int),
        (q.set_search_term v).set_page w = (q.set_page w).set_search_term v) ∧
    (∀ (q : CommentQueryBuilder) (v : Option String) (w : Option Int),
        (q.set_search_term v).set_limit w = (q.set_limit w).set_search_term v) ∧
    (∀ (q : CommentQueryBuilder) (v : Option Bool) (w : Option Bool),
        (q.set_saved_only v).set_show_bot_accounts w = (q.set_show_bot_accounts w).set_saved_only v) ∧
    (∀ (q : CommentQueryBuilder) (v : Option Bool) (w : Option (List Int)),
        (q.set_saved_only v).set_parent_path w = (q.set_parent_path w).set_saved_only v) ∧
    (∀ (q : CommentQueryBuilder) (v : Option Bool) (w : Option Int),
        (q.set_saved_only v).set_page w = (q.set_page w).set_saved_only v) ∧
    (∀ (q : CommentQueryBuilder) (v : Option Bool) (w : Option Int),
        (q.set_saved_only v).set_limit w = (q.set_limit w).set_saved_only v) ∧
    (∀ (q : CommentQueryBuilder) (v : Option Bool) (w : Option (List Int)),
        (q.set_show_bot_accounts v).set_parent_path w = (q.set_parent_path w).set_show_bot_accounts v) ∧
    (∀ (q : CommentQueryBuilder) (v : Option Bool) (w : Option Int),
        (q.set_show_bot_accounts v).set_page w = (q.set_page w).set_show_bot_accounts v) ∧
    (∀ (q : CommentQueryBuilder) (v : Option Bool) (w : Option Int),
        (q.set_show_bot_accounts v).set_limit w = (q.set_limit w).set_show_bot_accounts v) ∧
    (∀ (q : CommentQueryBuilder) (v : Option (List Int)) (w : Option Int),
        (q.set_parent_path v).set_page w = (q.set_page w).set_parent_path v) ∧
    (∀ (q : CommentQueryBuilder) (v : Option (List Int)) (w : Option Int),
        (q.set_parent_path v).set_limit w = (q.set_limit w).set_parent_path v) ∧
    (∀ (q : CommentQueryBuilder) (v : Option Int) (w : Option Int),
        (q.set_page v).set_limit w = (q.set_limit w).set_page v) := by
  and_intros <;> intros <;> and_intros <;> rfl

/-- **C7.** Ban semantics: (i) for a successful single-item read,
`creator_banned_from_community` is true iff a ban record for (the view's
community, the view's creator) exists whose expiry is absent or strictly
later than query time — so an expired ban yields false; (ii) the same holds
for every view of a successful list; (iii) ban records are never used to
exclude rows: swapping the entire ban table changes neither which comments a
list returns nor their order (only the ban flag can change). -/
theorem creator_banned_iff_active_ban :
    (∀ (db : Db) (now cid : Int) (mp : Option Int) (v : CommentView),
      CommentView.read db now cid mp = Except.ok v →
      (v.creator_banned_from_community = true ↔
        ∃ b ∈ db.community_person_ban, b.community_id = v.community.id ∧
          b.person_id = v.comment.creator_id ∧
          (b.expires = none ∨ ∃ e, b.expires = some e ∧ now < e))) ∧
    (∀ (db : Db) (now : Int) (hr : Int → Int → Int) (q : CommentQueryBuilder)
        (views : List CommentView),
      CommentQueryBuilder.list db now hr q = Except.ok views →
      ∀ v ∈ views,
        (v.creator_banned_from_community = true ↔
          ∃ b ∈ db.community_person_ban, b.community_id = v.community.id ∧
            b.person_id = v.comment.creator_id ∧
            (b.expires = none ∨ ∃ e, b.expires = some e ∧ now < e))) ∧
    (∀ (db : Db) (now : Int) (hr : Int → Int → Int) (q : CommentQueryBuilder)
        (bans : List CommunityPersonBan),
      (CommentQueryBuilder.list { db with community_person_ban := bans } now hr q).map
          (fun vs => vs.map (fun v => v.comment)) =
        (CommentQueryBuilder.list db now hr q).map (fun vs => vs.map (fun v => v.comment))) := by
  refine ⟨?_, ?_, ?_⟩
  · intro db now cid mp v hread
    obtain ⟨t, hfind, hbt, hv⟩ := read_spec hread
    have hban := (buildTuple_spec hbt).2.2.2.2.2.1
    subst hv
    show t.creator_banned_from_community.isSome = true ↔ _
    rw [hban]
    exact banJoin_isSome_iff
  · intro db now hr q views hl v hv
    obtain ⟨t, ht, rfl⟩ := mem_list_views hl hv
    have hbt := (mem_baseRows_spec (mem_filteredRows.mp ht).1).1
    have hban := (buildTuple_spec hbt).2.2.2.2.2.1
    show t.creator_banned_from_community.isSome = true ↔ _
    rw [hban]
    exact banJoin_isSome_iff
  · intro db now hr q bans
    unfold CommentQueryBuilder.list
    cases hE : listingTypeError q with
    | some e => rfl
    | none =>
      rw [filteredRows_setBan]
      simp only [Except.map, CommentView.from_tuple_to_vec]
      rw [← List.map_drop, ← List.map_take]
      simp only [List.map_map]
      rfl

unseal List.merge List.mergeSort in
/-- **C7 witness**: with an unexpired ban (no expiry) of person 1 in
community 100, both the read and list paths report
`creator_banned_from_community = true` on person 1's comments (and the
banned-iff holds); with the same ban expired at time 1500 < now = 2000, the
flag is false; and replacing the ban table leaves the listed comments
untouched. -/
theorem creator_banned_iff_active_ban_witness :
    ((okView (CommentView.read
          { dbA with community_person_ban := [ { id := 7, community_id := 100, person_id := 1, expires := none } ] }
          2000 10 none)).creator_banned_from_community = true ↔
      ∃ b ∈ ({ dbA with community_person_ban := [ { id := 7, community_id := 100, person_id := 1, expires := none } ] } : Db).community_person_ban,
        b.community_id = (okView (CommentView.read
            { dbA with community_person_ban := [ { id := 7, community_id := 100, person_id := 1, expires := none } ] }
            2000 10 none)).community.id ∧
        b.person_id = (okView (CommentView.read
            { dbA with community_person_ban := [ { id := 7, community_id := 100, person_id := 1, expires := none } ] }
            2000 10 none)).comment.creator_id ∧
        (b.expires = none ∨ ∃ e, b.expires = some e ∧ (2000 : Int) < e)) ∧
    (okView (CommentView.read
        { dbA with community_person_ban := [ { id := 7, community_id := 100, person_id := 1, expires := none } ] }
        2000 10 none)).creator_banned_from_community = true ∧
    (okView (CommentView.read
        { dbA with community_person_ban := [ { id := 7, community_id := 100, person_id := 1, expires := some 1500 } ] }
        2000 10 none)).creator_banned_from_community = false ∧
    (CommentQueryBuilder.list
        { dbA with community_person_ban := [ { id := 7, community_id := 100, person_id := 1, expires := none } ] }
        2000 hr0 CommentQueryBuilder.create).map (fun vs => vs.map (fun v => v.comment)) =
      (CommentQueryBuilder.list dbA 2000 hr0 CommentQueryBuilder.create).map
        (fun vs => vs.map (fun v => v.comment)) := by
  refine ⟨?_, by decide, by decide, ?_⟩
  · exact creator_banned_iff_active_ban.1
      { dbA with community_person_ban := [ { id := 7, community_id := 100, person_id := 1, expires := none } ] }
      2000 10 none _ rfl
  · exact creator_banned_iff_active_ban.2.2 dbA 2000 hr0 CommentQueryBuilder.create
      [ { id := 7, community_id := 100, person_id := 1, expires := none } ]

end Lemmy
